import Mathlib

/-!
# KeycloakRolesConfigurator: the operation reconciliation engine

A shallow embedding of `operation.go`, `client.go`, `role.go`, `user.go`,
`authentication.go`, the processing loop of `app.go` and the row functions of
`excel_script.go`.  The program is stateful and talks to a Keycloak server,
so every method of `Operation` becomes a function `World → World × result`:

* `World` holds the `Operation` being processed, the process-wide
  `clientIdCache`, and logs of the effects the code performs (HTTP requests
  executed, waits on the rate limiter, `bar.Add(1)` calls, log lines);
* `Env` holds what the program does not control: the answers of the server,
  the outcome of each wait on the rate limiter, what `json.Unmarshal` makes of
  a body, the order in which a `range` walks a map, and the credentials fixed
  at build time.

The server is a function of the requests executed so far and of the current
request, so a theorem quantified over `Env` covers every sequence of answers.
One entry of `World.trace` is one execution of a resty request
(`Get`/`Post`/`Put`/`Delete`); re-sends done inside resty by its retry
mechanism are not listed separately, and the answer is the final one.
-/

namespace KeycloakRoles

/-! ## Data model -/

/-- A Go `map[K]V` as an association list without duplicate keys. -/
abbrev GoMap (κ υ : Type) := List (κ × υ)

/-- Map read `v, exists := m[k]`. -/
def GoMap.get {κ υ : Type} [DecidableEq κ] (m : GoMap κ υ) (k : κ) : Option υ :=
  (m.find? (fun e => decide (e.1 = k))).map (fun e => e.2)

/-- Map write `m[k] = v`: an existing entry for the key is replaced. -/
def GoMap.set {κ υ : Type} [DecidableEq κ] (m : GoMap κ υ) (k : κ) (v : υ) : GoMap κ υ :=
  (k, v) :: m.filter (fun e => !decide (e.1 = k))

/-- A Go `error` value: `none` is `nil`, `some s` an error whose text is `s`. -/
abbrev GoError := Option String

/-- The `Client` of client.go. -/
structure Client where
  ID : String
  ClientID : String
  Name : String
deriving DecidableEq, Repr

/-- The `Group` of client.go (a group with its recursively nested subgroups). -/
inductive Group where
  | mk (ID : String) (Name : String) (SubGroups : List Group)

/-- Field `ID` of a `Group`. -/
def Group.ID : Group → String
  | .mk i _ _ => i

/-- Field `Name` of a `Group`. -/
def Group.Name : Group → String
  | .mk _ n _ => n

/-- The `RoleResponse` of role.go. -/
structure RoleResponse where
  ID : String
deriving DecidableEq, Repr

/-- The `UserResponse` of user.go. -/
structure UserResponse where
  Id : String
deriving DecidableEq, Repr

/-- The `Session` of authentication.go. -/
structure Session where
  AccessToken : String
  ExpiresIn : Int
  RefreshExpiresIn : Int
  RefreshToken : String
  TokenType : String
  NotBeforePolicy : Int
  SessionState : String
  Scope : String
deriving DecidableEq, Repr

/-- HTTP methods used by the program. -/
inductive Method where
  | GET | POST | PUT | DELETE
deriving DecidableEq, Repr

/-- Request bodies set with `SetBody` / `SetFormData`. -/
inductive Payload where
  | empty
  | role (name : String)
  | assign (id : String) (name : String)
  | form (fields : List (String × String))
deriving DecidableEq, Repr

/-- One resty request as the call site builds it: method, endpoint template,
path parameters, query parameters, headers and body. -/
structure Request where
  method : Method
  url : String
  pathParams : List (String × String) := []
  queryParams : List (String × String) := []
  headers : List (String × String) := []
  body : Payload := Payload.empty
deriving DecidableEq, Repr

/-- What a resty call returns: `err` (transport error, `none` is `nil`),
`res.StatusCode()` and the body `res.Body()` (`res.String()` is
`Response.string` below).  resty hands
back a response value also when the transport fails, so reading its status
and body is always possible; HTTP statuses are never turned into an `err`. -/
structure Response where
  err : GoError := none
  status : Nat := 0
  body : String := ""
deriving DecidableEq, Repr

/-- The settings of the `*resty.Client` that the program changes; the two wait
times are in milliseconds. -/
structure HttpClient where
  baseURL : String
  headers : GoMap String String
  authToken : String
  retryCount : Nat
  retryWaitTime : Nat
  retryMaxWaitTime : Nat
  retryConditions : List Bool
deriving DecidableEq, Repr

/-- The `Operation` of operation.go.  The `client` pointer is never nil
(`createOperationFromRow` always sets it), so it is a plain value here. -/
structure Operation where
  client : HttpClient
  ClientIdName : String
  realm : String
  action : String
  roleName : String
  ldaps : List String
  ldapsString : String
  clientId : String
  parentGroupId : String
  errors : GoMap Nat String
  errorCounter : Nat
deriving DecidableEq, Repr

/-- Console level of a line printed with `logInfo`, `logWarn` or `logError`. -/
inductive Level where
  | INFO | WARN | ERROR
deriving DecidableEq, Repr

/-- One call of `logInfo`, `logWarn` or `logError`: the level, the format
string and the arguments as texts (what `Printf` makes of them is left out). -/
structure LogLine where
  level : Level
  format : String
  args : List String
deriving DecidableEq, Repr

/-- The operation in progress, the global `clientIdCache`, and the effects so
far: requests executed, waits on `userSearchLimit`, `bar.Add(1)` calls on the
progress bar of the operation and the maximum that bar was created with,
lines written to `logFile` by `AddError` (without their time stamp), lines
printed with `log.Printf`, and lines printed with the logger of
file_utils.go. -/
structure World where
  op : Operation
  clientIdCache : GoMap String String
  trace : List Request
  waits : Nat
  bar : Nat
  barMax : Nat
  logFile : List String
  stdlog : List String
  console : List LogLine
deriving DecidableEq, Repr

/-- Result of `json.Unmarshal(body, &v)`: the value left in `v` and the error. -/
structure Decoded (α : Type) where
  value : α
  err : GoError

/-- What `json.Unmarshal` makes of a body, for each target type used. -/
structure Codec where
  clients : String → Decoded (List Client)
  groups : String → Decoded (List Group)
  group : String → Decoded Group
  roleResponse : String → Decoded RoleResponse
  users : String → Decoded (List UserResponse)
  session : String → Decoded Session

/-- Everything outside the program. `backend history req` is the answer to
`req` after the requests of `history`; `limiter n` tells whether the wait
number `n` on `userSearchLimit` got a token before the timeout; `mapOrder m`
is the order in which a `range` over the ledger `m` walks its entries, which
Go leaves to the run time. -/
structure Env where
  backend : List Request → Request → Response
  limiter : Nat → Bool
  json : Codec
  keycloakUser : String
  keycloakPass : String
  mapOrder : GoMap Nat String → List (Nat × String)

/-- Executes one request: it is appended to the trace and answered by the backend. -/
def execute (env : Env) (req : Request) (w : World) : World × Response :=
  ({ w with trace := w.trace ++ [req] }, env.backend w.trace req)

/-- Outcome of code that can hit a Go run-time panic: `ok w a` is a normal
return with result `a` in world `w`; `panic w` is a nil-pointer dereference
raised in world `w`, which ends the process (nothing recovers it). -/
inductive Run (α : Type) where
  | ok (w : World) (a : α)
  | panic (w : World)

/-- The world in which the code returned or panicked. -/
def Run.world {α : Type} : Run α → World
  | Run.ok w _ => w
  | Run.panic w => w

/-- Whether the code panicked. -/
def Run.panicked {α : Type} : Run α → Bool
  | Run.ok _ _ => false
  | Run.panic _ => true

/-- Go `unicode.IsSpace`. -/
def isSpace (c : Char) : Bool :=
  decide (c.toNat = 9 ∨ c.toNat = 10 ∨ c.toNat = 11 ∨ c.toNat = 12 ∨ c.toNat = 13 ∨
    c.toNat = 32 ∨ c.toNat = 0x85 ∨ c.toNat = 0xA0 ∨ c.toNat = 0x1680 ∨
    (0x2000 ≤ c.toNat ∧ c.toNat ≤ 0x200A) ∨ c.toNat = 0x2028 ∨ c.toNat = 0x2029 ∨
    c.toNat = 0x202F ∨ c.toNat = 0x205F ∨ c.toNat = 0x3000)

/-- Go `strings.TrimSpace`. -/
def trimSpace (s : String) : String :=
  String.mk ((s.data.dropWhile isSpace).reverse.dropWhile isSpace).reverse

/-- Go `strings.TrimRight(s, "/")`. -/
def trimRightSlash (s : String) : String :=
  String.mk (s.data.reverse.dropWhile (fun c => decide (c = '/'))).reverse

/-- Method `String` of a resty response: the body as text, without the white
space around it. -/
def Response.string (r : Response) : String :=
  trimSpace r.body

/-- Go `strings.Contains`. -/
def strContains (s sub : String) : Bool :=
  s.data.tails.any (fun t => sub.data.isPrefixOf t)

/-- Go `strings.TrimPrefix`. -/
def stripLead (s lead : String) : String :=
  if lead.data.isPrefixOf s.data then String.mk (s.data.drop lead.data.length) else s

/-! ## operation.go -/

/-- Method `AddError` of operation.go. -/
def AddError (msg : String) (w : World) : World :=
  let counter := w.op.errorCounter + 1
  { w with
    op := { w.op with errorCounter := counter, errors := w.op.errors.set counter msg }
    logFile := w.logFile ++ [msg] }

/-! ## client.go -/

def clientsEndpoint : String := "/admin/realms/{instance}/clients"
def groupsEndpoint : String := "/admin/realms/{realm}/groups"
def groupChildrenEndpoint : String := "/admin/realms/{realm}/groups/{groupId}/children"
def defaultMaxResults : Nat := 100
def rolesGroupName : String := "Roles"

/-- Method `buildClientSearchParams` of client.go. -/
def buildClientSearchParams (op : Operation) : List (String × String) :=
  [("clientId", op.ClientIdName), ("first", "0"),
   ("max", toString defaultMaxResults), ("search", "true")]

/-- Method `logClientSearchError` of client.go. -/
def logClientSearchError (res : Response) (w : World) : World :=
  AddError ("Ошибка поиска клиента: " ++ toString res.status ++
    ". Пропускаем LDAP: " ++ w.op.ldapsString) w

/-- Method `parseClientsResponse` of client.go. -/
def parseClientsResponse (env : Env) (res : Response) (w : World) :
    World × Except String (List Client) :=
  match (env.json.clients res.body).err with
  | some e =>
    (AddError ("Ошибка парсинга клиентов: " ++ e ++ ". Пропускаем LDAP: " ++ w.op.ldapsString) w,
     Except.error e)
  | none => (w, Except.ok (env.json.clients res.body).value)

/-- The request built by `fetchClients`. -/
def clientSearchRequest (op : Operation) : Request :=
  { method := Method.GET, url := clientsEndpoint,
    pathParams := [("instance", op.realm)],
    queryParams := buildClientSearchParams op }

/-- Method `fetchClients` of client.go. -/
def fetchClients (env : Env) (w : World) : World × Except String (List Client) :=
  let (w1, res) := execute env (clientSearchRequest w.op) w
  match res.err with
  | some e => (logClientSearchError res w1, Except.error e)
  | none => parseClientsResponse env res w1

/-- Method `validateClientSearchResults` of client.go. -/
def validateClientSearchResults (clients : List Client) (w : World) : World × GoError :=
  match clients.length with
  | 0 =>
    (AddError ("Клиент " ++ w.op.ClientIdName ++ " не найден. Пропускаем LDAP:" ++
      w.op.ldapsString) w, some "client not found")
  | 1 => (w, none)
  | _ =>
    (AddError ("Найдено несколько клиентов с именем: " ++ w.op.ClientIdName ++
      ". Пропускаем LDAP:" ++ w.op.ldapsString) w, some "multiple clients found")

/-- Method `cacheAndSetClientID` of client.go. -/
def cacheAndSetClientID (clientID : String) (w : World) : World :=
  { w with
    clientIdCache := w.clientIdCache.set w.op.ClientIdName clientID
    op := { w.op with clientId := clientID } }

/-- Method `FindClientIdByName` of client.go. -/
def FindClientIdByName (env : Env) (w : World) : World × GoError :=
  match w.clientIdCache.get w.op.ClientIdName with
  | some cachedID => ({ w with op := { w.op with clientId := cachedID } }, none)
  | none =>
    match fetchClients env w with
    | (w1, Except.error e) => (w1, some e)
    | (w1, Except.ok clients) =>
      match validateClientSearchResults clients w1 with
      | (w2, some e) => (w2, some e)
      | (w2, none) =>
        match clients with
        | c :: _ => (cacheAndSetClientID c.ID w2, none)
        | [] => (w2, none)

/-- Method `buildRolesGroupSearchParams` of client.go. -/
def buildRolesGroupSearchParams : List (String × String) :=
  [("exact", "true"), ("search", rolesGroupName), ("global", "true"), ("max", "21")]

/-- Method `logGroupSearchError` of client.go. -/
def logGroupSearchError (res : Response) (w : World) : World :=
  AddError ("Не удается получить группу ролей из keycloak: " ++ toString res.status ++
    ". Пропускаем LDAP:" ++ w.op.ldapsString) w

/-- Method `logGroupCreationError` of client.go. -/
def logGroupCreationError (res : Response) (w : World) : World :=
  AddError ("Не удается создать группу в keycloak по причине: " ++ res.string ++
    ", код ошибки: " ++ toString res.status ++ ". Пропускаем LDAP:" ++ w.op.ldapsString) w

/-- Method `parseRolesGroupResponse` of client.go. -/
def parseRolesGroupResponse (env : Env) (res : Response) (w : World) :
    World × Except String Group :=
  match (env.json.groups res.body).err, (env.json.groups res.body).value with
  | none, g :: _ => (w, Except.ok g)
  | _, _ => (logGroupSearchError res w, Except.error "failed to parse roles group")

/-- The request built by `findRolesGroup`. -/
def rolesGroupSearchRequest (op : Operation) : Request :=
  { method := Method.GET, url := groupsEndpoint,
    pathParams := [("realm", op.realm)],
    queryParams := buildRolesGroupSearchParams }

/-- Method `findRolesGroup` of client.go. -/
def findRolesGroup (env : Env) (w : World) : World × Except String Group :=
  let (w1, res) := execute env (rolesGroupSearchRequest w.op) w
  match res.err with
  | some e => (logGroupSearchError res w1, Except.error e)
  | none => parseRolesGroupResponse env res w1

/-- The request built by `getGroupSubgroups`. -/
def groupSubgroupsRequest (op : Operation) (groupID : String) : Request :=
  { method := Method.GET, url := groupChildrenEndpoint,
    pathParams := [("realm", op.realm), ("groupId", groupID)],
    queryParams := [("first", "0"), ("max", "250")] }

/-- Method `getGroupSubgroups` of client.go. -/
def getGroupSubgroups (env : Env) (groupID : String) (w : World) :
    World × List Group × GoError :=
  let (w1, res) := execute env (groupSubgroupsRequest w.op groupID) w
  match res.err with
  | some e => (w1, [], some e)
  | none => (w1, (env.json.groups res.body).value, (env.json.groups res.body).err)

/-- Method `findClientSubgroup` of client.go. -/
def findClientSubgroup (env : Env) (rolesGroup : Group) (w : World) : World × String :=
  match getGroupSubgroups env rolesGroup.ID w with
  | (w1, _, some _) => (w1, "")
  | (w1, subgroups, none) =>
    match subgroups.find? (fun g => decide (g.Name = w1.op.ClientIdName)) with
    | some g => (w1, g.ID)
    | none => (w1, "")

/-- The request built by `createClientSubgroup`. -/
def createClientSubgroupRequest (op : Operation) (parentGroupID : String) : Request :=
  { method := Method.POST, url := groupChildrenEndpoint,
    pathParams := [("instance", op.realm), ("group", parentGroupID)],
    headers := [("Content-Type", "application/json;charset=UTF-8")],
    body := Payload.role op.ClientIdName }

/-- Method `createClientSubgroup` of client.go. -/
def createClientSubgroup (env : Env) (parentGroupID : String) (w : World) : World × GoError :=
  let (w1, res) := execute env (createClientSubgroupRequest w.op parentGroupID) w
  if res.err ≠ none ∨ res.status ≠ 201 then
    (logGroupCreationError res w1, some "group creation failed")
  else
    match (env.json.group res.body).err with
    | some e => (w1, some e)
    | none =>
      ({ w1 with op := { w1.op with parentGroupId := (env.json.group res.body).value.ID } }, none)

/-- Method `FindOrCreateGroupByName` of client.go. -/
def FindOrCreateGroupByName (env : Env) (w : World) : World × GoError :=
  match findRolesGroup env w with
  | (w1, Except.error e) => (w1, some e)
  | (w1, Except.ok rolesGroup) =>
    let (w2, subgroupID) := findClientSubgroup env rolesGroup w1
    if subgroupID ≠ "" then
      ({ w2 with op := { w2.op with parentGroupId := subgroupID } }, none)
    else createClientSubgroup env rolesGroup.ID w2

/-! ## authentication.go -/

def tokenEndpoint : String := "/realms/{instance}/protocol/openid-connect/token"
def adminClientID : String := "admin-cli"
def grantType : String := "password"

/-- Client method `SetAuthToken` of resty. -/
def SetAuthToken (token : String) (w : World) : World :=
  { w with op := { w.op with client := { w.op.client with authToken := token } } }

/-- Client method `SetHeader` of resty. -/
def SetHeader (key value : String) (w : World) : World :=
  { w with op := { w.op with
      client := { w.op.client with headers := w.op.client.headers.set key value } } }

/-- Method `validateAuthParams` of authentication.go (its check `app.client == nil`
cannot fire: the client of an `Operation` is a value here). -/
def validateAuthParams (env : Env) (w : World) : GoError :=
  if w.op.realm = "" then some "realm не может быть пустым"
  else if env.keycloakUser = "" ∨ env.keycloakPass = "" then
    some "учётные данные Keycloak не установлены (должны задаваться при сборке)"
  else none

/-- Method `buildAuthFormData` of authentication.go. -/
def buildAuthFormData (env : Env) : List (String × String) :=
  [("client_id", adminClientID), ("grant_type", grantType),
   ("username", env.keycloakUser), ("password", env.keycloakPass)]

/-- The request built by `sendAuthRequest`. -/
def tokenRequest (env : Env) (op : Operation) : Request :=
  { method := Method.POST, url := tokenEndpoint,
    pathParams := [("instance", op.realm)],
    body := Payload.form (buildAuthFormData env) }

/-- Method `resetTokenOnError` of authentication.go. -/
def resetTokenOnError (res : Response) (w : World) : World :=
  if res.err ≠ none ∨ res.status ≠ 200 then SetAuthToken "" w else w

/-- Method `sendAuthRequest` of authentication.go (the deferred
`resetTokenOnError` runs before the result reaches the caller). -/
def sendAuthRequest (env : Env) (w : World) : World × Response :=
  let (w1, res) := execute env (tokenRequest env w.op) w
  (resetTokenOnError res w1, res)

/-- Method `handleAuthError` of authentication.go. -/
def handleAuthError (e : String) (res : Response) (w : World) : World × GoError :=
  (AddError ("Ошибка аутентификации: " ++ toString res.status ++
    ". Пропускаем LDAP: " ++ w.op.ldapsString) w, some e)

/-- Method `parseAuthResponse` of authentication.go. -/
def parseAuthResponse (env : Env) (res : Response) (w : World) : World × Except String Session :=
  match (env.json.session res.body).err with
  | some e => (AddError ("Ошибка парсинга ответа: " ++ e) w, Except.error ("ошибка парсинга: " ++ e))
  | none => (w, Except.ok (env.json.session res.body).value)

/-- Method `configureClient` of authentication.go. -/
def configureClient (session : Session) (w : World) : World :=
  SetAuthToken session.AccessToken (SetHeader "Content-Type" "Application/json" w)

/-- Method `Authenticate` of authentication.go. -/
def Authenticate (env : Env) (w : World) : World × GoError :=
  match validateAuthParams env w with
  | some e => (w, some e)
  | none =>
    match sendAuthRequest env w with
    | (w1, res) =>
      match res.err with
      | some e => handleAuthError e res w1
      | none =>
        match parseAuthResponse env res w1 with
        | (w2, Except.error e) => (w2, some e)
        | (w2, Except.ok session) => (configureClient session w2, none)

/-! ## user.go -/

def usersEndpoint : String := "/admin/realms/{instance}/users"

/-- Method `checkRateLimit` of user.go: one wait on `userSearchLimit`, bounded
by `userSearchTimeout`. -/
def checkRateLimit (env : Env) (ldap : String) (w : World) : World × GoError :=
  let w1 := { w with waits := w.waits + 1 }
  if env.limiter w.waits then (w1, none)
  else (AddError ("Превышен лимит запросов для LDAP: " ++ ldap) w1, some "rate: Wait failed")

/-- Method `getUserSearchParams` of user.go. -/
def getUserSearchParams (ldap : String) : List (String × String) :=
  [("exact", "true"), ("username", ldap)]

/-- The request built by `searchUser`. -/
def userSearchRequest (op : Operation) (ldap : String) : Request :=
  { method := Method.GET, url := usersEndpoint,
    pathParams := [("instance", op.realm)],
    queryParams := getUserSearchParams ldap }

/-- Method `searchUser` of user.go.  The first component of the result is the
returned `*resty.Response` pointer (`none` is `nil`), the second the returned
error: on a status other than 200 without transport error both are nil. -/
def searchUser (env : Env) (ldap : String) (w : World) : World × Option Response × GoError :=
  let (w1, resp) := execute env (userSearchRequest w.op ldap) w
  if resp.err ≠ none ∨ resp.status ≠ 200 then
    (AddError ("Ошибка поиска LDAP: " ++ ldap ++ ", статус: " ++ toString resp.status) w1,
     none, resp.err)
  else (w1, some resp, none)

/-- Method `parseUserResponse` of user.go.  `resp.Body()` reads a field of
`resp`, so a nil `resp` is a nil-pointer dereference. -/
def parseUserResponse (env : Env) (resp : Option Response) (ldap : String) (w : World) :
    Run String :=
  match resp with
  | none => Run.panic w
  | some r =>
    match (env.json.users r.body).err with
    | some _ => Run.ok (AddError ("Ошибка парсинга пользователя: " ++ ldap) w) ""
    | none =>
      match (env.json.users r.body).value with
      | [] => Run.ok (AddError ("LDAP не найден: " ++ ldap) w) ""
      | u :: _ => Run.ok w u.Id

/-- Method `getUserIdByLdap` of user.go. -/
def getUserIdByLdap (env : Env) (ldap : String) (w : World) : Run String :=
  match checkRateLimit env ldap w with
  | (w1, some _) => Run.ok w1 ""
  | (w1, none) =>
    match searchUser env ldap w1 with
    | (w2, _, some _) => Run.ok w2 ""
    | (w2, resp, none) => parseUserResponse env resp ldap w2

/-! ## role.go -/

def actionCreate : String := "Create new role and add users to this role"
def actionAssociate : String := "Associate users with role"
def actionRemove : String := "Remove users from role"

/-- The request built by `createRole`. -/
def createRoleRequest (op : Operation) (roleName : String) : Request :=
  { method := Method.POST, url := "/admin/realms/{instance}/clients/{clientId}/roles",
    pathParams := [("instance", op.realm), ("clientId", op.clientId)],
    headers := [("Content-Type", "application/json")],
    body := Payload.role roleName }

/-- Method `createRole` of role.go. -/
def createRole (env : Env) (roleName : String) (w : World) : World :=
  let (w1, resp) := execute env (createRoleRequest w.op roleName) w
  if resp.err ≠ none ∨ resp.status ≠ 201 then
    if !strContains resp.string "already exists" then
      AddError ("Ошибка создания роли " ++ roleName ++ " причина в " ++ resp.string ++
        ", статус: " ++ toString resp.status) w1
    else w1
  else w1

/-- The first request built by `getSubGroupByName`: the parent group. -/
def parentGroupRequest (op : Operation) : Request :=
  { method := Method.GET, url := "/admin/realms/{instance}/groups/{group}",
    pathParams := [("instance", op.realm), ("group", op.parentGroupId)] }

/-- The second request built by `getSubGroupByName`: the children of a group. -/
def childrenRequest (op : Operation) (groupId : String) : Request :=
  { method := Method.GET, url := "/admin/realms/{realm}/groups/{groupId}/children",
    pathParams := [("realm", op.realm), ("groupId", groupId)],
    queryParams := [("first", "0"), ("max", "250")] }

/-- Method `getSubGroupByName` of role.go. -/
def getSubGroupByName (env : Env) (groupName : String) (w : World) : World × String :=
  let (w1, resp) := execute env (parentGroupRequest w.op) w
  if resp.err ≠ none ∨ resp.status ≠ 200 then
    (AddError ("Не удалось найти группу " ++ groupName ++ " причина " ++
      toString resp.status) w1, "")
  else
    let (w2, res) := execute env (childrenRequest w1.op (env.json.group resp.body).value.ID) w1
    match res.err with
    | some e => (AddError ("Ошибка запроса подгрупп: " ++ e) w2, "")
    | none =>
      if res.status ≠ 200 then
        (AddError ("HTTP " ++ toString res.status ++ ": не удалось получить подгруппы") w2, "")
      else
        match (env.json.groups res.body).value.find? (fun g => decide (g.Name = groupName)) with
        | some g => (w2, g.ID)
        | none => (w2, "")

/-- The request built by `createSubGroup`. -/
def createSubGroupRequest (op : Operation) (group : String) : Request :=
  { method := Method.POST, url := "/admin/realms/{instance}/groups/{group}/children",
    pathParams := [("instance", op.realm), ("group", op.parentGroupId)],
    headers := [("Content-Type", "application/json")],
    body := Payload.role group }

/-- Method `createSubGroup` of role.go. -/
def createSubGroup (env : Env) (group : String) (w : World) : World × String :=
  let (w1, resp) := execute env (createSubGroupRequest w.op group) w
  if resp.err ≠ none ∨ resp.status ≠ 201 then
    if resp.status = 409 then getSubGroupByName env group w1
    else
      (AddError ("Ошибка создания группы " ++ group ++ " причина в " ++ resp.string ++
        ", статус " ++ toString resp.status) w1, "")
  else (w1, (env.json.roleResponse resp.body).value.ID)

/-- The request built by `assignRole`. -/
def assignRoleRequest (op : Operation) (role id groupId : String) : Request :=
  { method := Method.POST,
    url := "/admin/realms/{instance}/groups/{groupId}/role-mappings/clients/{clientId}",
    pathParams := [("instance", op.realm), ("groupId", groupId), ("clientId", op.clientId)],
    headers := [("Content-Type", "application/json")],
    body := Payload.assign id role }

/-- Method `assignRole` of role.go. -/
def assignRole (env : Env) (role id groupId : String) (w : World) : World :=
  let (w1, res) := execute env (assignRoleRequest w.op role id groupId) w
  if res.err ≠ none ∨ res.status ≠ 204 then
    AddError ("Ошибка при назначении роли на шаге 2 группе " ++ groupId ++ " вызвана " ++
      toString res.status) w1
  else w1

/-- The request built by `addMember`. -/
def addMemberRequest (op : Operation) (userId groupId : String) : Request :=
  { method := Method.PUT, url := "/admin/realms/{instance}/users/{userId}/groups/{groupId}",
    pathParams := [("instance", op.realm), ("userId", userId), ("groupId", groupId)] }

/-- Method `addMember` of role.go. -/
def addMember (env : Env) (userId groupId : String) (w : World) : World :=
  let (w1, resp) := execute env (addMemberRequest w.op userId groupId) w
  if resp.err ≠ none ∨ resp.status ≠ 204 then
    AddError ("Ошибка при добавлении участника " ++ userId ++ " в группу " ++ groupId ++
      " вызвана " ++ toString resp.status) w1
  else w1

/-- The request built by `removeMember`. -/
def removeMemberRequest (op : Operation) (userId groupId : String) : Request :=
  { method := Method.DELETE, url := "/admin/realms/{instance}/users/{userId}/groups/{groupId}",
    pathParams := [("instance", op.realm), ("userId", userId), ("groupId", groupId)] }

/-- Method `removeMember` of role.go. -/
def removeMember (env : Env) (userId groupId : String) (w : World) : World :=
  let (w1, resp) := execute env (removeMemberRequest w.op userId groupId) w
  if resp.err ≠ none ∨ resp.status ≠ 204 then
    AddError ("Ошибка удаления участника " ++ userId ++ " из группы " ++ groupId ++
      " вызвана " ++ toString resp.status) w1
  else w1

/-- The request built by `findRole`. -/
def findRoleRequest (op : Operation) (roleName : String) : Request :=
  { method := Method.GET, url := "/admin/realms/{instance}/clients/{clientId}/roles/{role}",
    pathParams := [("instance", op.realm), ("clientId", op.clientId), ("role", roleName)] }

/-- Method `findRole` of role.go.  The retry condition and the retry settings
are set on the client of the operation and stay there. -/
def findRole (env : Env) (roleName : String) (create : Bool) (w : World) : World × String :=
  let w0 := { w with op := { w.op with client := { w.op.client with
    retryConditions := w.op.client.retryConditions ++ [create],
    retryCount := 5, retryMaxWaitTime := 20000, retryWaitTime := 4000 } } }
  let (w1, get) := execute env (findRoleRequest w.op roleName) w0
  if (get.err ≠ none ∨ get.status ≠ 200) ∧ create = true then
    (AddError ("Не удается найти роль " ++ roleName ++ " причина " ++ get.string ++
      ", вызвана " ++ toString get.status) w1, "")
  else (w1, (env.json.roleResponse get.body).value.ID)

/-- The call `bar.Add(1)`. -/
def barAdd (w : World) : World :=
  { w with bar := w.bar + 1 }

/-- The loop of `assignRoleWithGroup` over the logins still to process. -/
def assignLoop (env : Env) (subGroupId : String) : List String → World → Run Unit
  | [], w => Run.ok w ()
  | ldap :: rest, w =>
    match getUserIdByLdap env ldap w with
    | Run.panic w1 => Run.panic w1
    | Run.ok w1 userId =>
      if userId = "" then assignLoop env subGroupId rest w1
      else assignLoop env subGroupId rest (barAdd (addMember env userId subGroupId w1))

/-- Method `assignRoleWithGroup` of role.go. -/
def assignRoleWithGroup (env : Env) (roleId subGroupId : String) (w : World) : Run Unit :=
  let w1 := assignRole env w.op.roleName roleId subGroupId w
  assignLoop env subGroupId w1.op.ldaps w1

/-- The loop of `removeUsersFromGroup` over the logins still to process. -/
def removeLoop (env : Env) (subGroupId : String) : List String → World → Run Unit
  | [], w => Run.ok w ()
  | ldap :: rest, w =>
    match getUserIdByLdap env ldap w with
    | Run.panic w1 => Run.panic w1
    | Run.ok w1 userId =>
      if userId = "" then removeLoop env subGroupId rest w1
      else removeLoop env subGroupId rest (barAdd (removeMember env userId subGroupId w1))

/-- Method `removeUsersFromGroup` of role.go. -/
def removeUsersFromGroup (env : Env) (subGroupId : String) (w : World) : Run Unit :=
  removeLoop env subGroupId w.op.ldaps w

/-- The `switch app.action` that ends `processRole`. -/
def processRoleSwitch (env : Env) (roleId subGroupId : String) (w : World) : Run Unit :=
  if w.op.action = actionAssociate then
    if roleId = "" ∨ subGroupId = "" then
      Run.ok (AddError ("Роль " ++ w.op.roleName ++ " не существует. Пропуск LDAP:" ++
        w.op.ldapsString) w) ()
    else assignRoleWithGroup env roleId subGroupId w
  else if w.op.action = actionRemove then
    if roleId = "" ∨ subGroupId = "" then
      Run.ok (AddError ("Роль " ++ w.op.roleName ++ " не существует. Пропуск LDAP:" ++
        w.op.ldapsString) w) ()
    else removeUsersFromGroup env subGroupId w
  else Run.ok w ()

/-- The `log.Printf` call of `processRole`. -/
def logPrintf (line : String) (w : World) : World :=
  { w with stdlog := w.stdlog ++ [line] }

/-- Assignment `app.action = a`. -/
def setAction (a : String) (w : World) : World :=
  { w with op := { w.op with action := a } }

/-- The two lookups that open `processRole`: the world after them, `roleId`
and `subGroupId`. -/
def lookups (env : Env) (w : World) : World × String × String :=
  match findRole env w.op.roleName false w with
  | (w1, roleId) =>
    match getSubGroupByName env w1.op.roleName w1 with
    | (w2, subGroupId) => (w2, roleId, subGroupId)

/-- The two statements of `processRole` for a role that already exists: the
log line and the change of the action. -/
def switchToAssociate (w : World) : World :=
  setAction actionAssociate
    (logPrintf ("Роль " ++ w.op.roleName ++
      " уже существует, смена действия на \x27Associate users with role\x27") w)

/-- The three calls of the creating branch of `processRole`: the world after
them, the new `roleId` and the new `subGroupId`. -/
def createAttempt (env : Env) (w : World) : World × String × String :=
  let w3 := createRole env w.op.roleName w
  match findRole env w3.op.roleName true w3 with
  | (w4, roleId) =>
    match createSubGroup env w4.op.roleName w4 with
    | (w5, subGroupId) => (w5, roleId, subGroupId)

/-- Method `processRole` of role.go. -/
def processRole (env : Env) (w : World) : Run Unit :=
  match lookups env w with
  | (w2, roleId, subGroupId) =>
    if w2.op.action = actionCreate then
      if roleId ≠ "" ∨ subGroupId ≠ "" then
        processRoleSwitch env roleId subGroupId (switchToAssociate w2)
      else
        match createAttempt env w2 with
        | (w5, roleId1, subGroupId1) =>
          if roleId1 = "" ∨ subGroupId1 = "" then Run.ok w5 ()
          else processRoleSwitch env roleId1 subGroupId1 w5
    else processRoleSwitch env roleId subGroupId w2

/-! ## operation.go: printing the ledger -/

/-- The body of the loop of `printErrors`: the level and the text printed for
one ledger message. -/
def printEntry (errMsg : String) : Level × String :=
  if strContains errMsg "LDAP не найден" then (Level.WARN, stripLead errMsg "ERROR: ")
  else (Level.ERROR, stripLead errMsg "ERROR: ")

/-- Method `printErrors` of operation.go.  Go leaves the order in which `range`
walks a map unspecified; `visit` is the order the run time chose. -/
def printErrors (visit : GoMap Nat String → List (Nat × String)) (op : Operation) :
    List (Level × String) :=
  if op.errors.length = 0 then [] else (visit op.errors).map (fun e => printEntry e.2)

/-! ## file_utils.go and app.go -/

/-- Function `logInfo` of file_utils.go. -/
def logInfo (format : String) (args : List String) (w : World) : World :=
  { w with console := w.console ++ [⟨Level.INFO, format, args⟩] }

/-- Function `logWarn` of file_utils.go. -/
def logWarn (format : String) (args : List String) (w : World) : World :=
  { w with console := w.console ++ [⟨Level.WARN, format, args⟩] }

/-- Function `logError` of file_utils.go. -/
def logError (format : String) (args : List String) (w : World) : World :=
  { w with console := w.console ++ [⟨Level.ERROR, format, args⟩] }

/-- The call `operation.printErrors()`: the lines of `printErrors` reach the
console, in the order in which the run time walks the ledger. -/
def runPrintErrors (env : Env) (w : World) : World :=
  { w with console := w.console ++
      (printErrors env.mapOrder w.op).map (fun p => ⟨p.1, "%s", [p.2]⟩) }

/-- Method `processOperation` of app.go.  It creates a new progress bar whose
maximum is the number of logins of the operation. -/
def processOperation (env : Env) (index total : Nat) (w : World) : Run GoError :=
  let w0 := logInfo "Обработка операции %d/%d: %s - %s"
    [toString (index + 1), toString total, w.op.action, w.op.roleName]
    { w with bar := 0, barMax := w.op.ldaps.length }
  match Authenticate env w0 with
  | (w1, some e) =>
    Run.ok (runPrintErrors env
      (logError "Ошибка аутентификации для операции %s: %v" [w1.op.roleName, e] w1)) none
  | (w1, none) =>
    match FindClientIdByName env w1 with
    | (w2, some e) =>
      Run.ok (runPrintErrors env
        (logError "Ошибка поиска клиента для операции " [w2.op.roleName, ": ", e] w2)) none
    | (w2, none) =>
      match FindOrCreateGroupByName env w2 with
      | (w3, some e) =>
        Run.ok (runPrintErrors env
          (logError "Ошибка работы с группами для операции " [w3.op.roleName, ": ", e] w3)) none
      | (w3, none) =>
        match processRole env w3 with
        | Run.panic w4 => Run.panic w4
        | Run.ok w4 _ =>
          Run.ok (if w4.op.errors.length > 0 then runPrintErrors env w4 else w4) none

/-- The loop of `processFile` over the operations still to process; `index` is
the loop index, `total` the number of operations of the file. -/
def processOperations (env : Env) (total : Nat) : List Operation → Nat → World → Run GoError
  | [], _, w => Run.ok w none
  | operation :: rest, index, w =>
    match processOperation env index total { w with op := operation } with
    | Run.panic w1 => Run.panic w1
    | Run.ok w1 (some e) => Run.ok w1 (some e)
    | Run.ok w1 none => processOperations env total rest (index + 1) w1

/-- Method `processFile` of app.go; `read` is what `readExcelFile` returned for
the file and `fileBase` is `filepath.Base(file)`. -/
def processFile (env : Env) (fileBase : String) (read : Except String (List Operation))
    (w : World) : Run GoError :=
  match read with
  | Except.error e => Run.ok w (some e)
  | Except.ok operations =>
    if operations.length = 0 then
      Run.ok (logWarn "Файл " [fileBase, " не содержит операций для обработки"] w) none
    else processOperations env operations.length operations 0 w

/-! ## excel_script.go

The functions that turn the rows of the sheet into operations.  They are
pure here: the lines they print with `logWarn` and `log.Printf` are left out. -/

def validTypes : String := "Employee|Partner|Customer"
def validEnvironments : String := "Prod|Dev|Test"
def validActions : String :=
  "Create new role and add users to this role|Associate users with role|Remove users from role"
def minColumnsCount : Nat := 6

/-- Go `strings.Split` with a separator of one character, on the characters
of the string. -/
def splitOnChar (sep : Char) : List Char → List (List Char)
  | [] => [[]]
  | c :: cs =>
    if c = sep then [] :: splitOnChar sep cs
    else
      match splitOnChar sep cs with
      | [] => [[c]]
      | x :: xs => (c :: x) :: xs

/-- Go `regexp.MustCompile(pattern).MatchString(s)` for a pattern that is a
list of literal texts separated by `|`, as the three patterns of this file
are.  The match is not anchored: it holds as soon as one of the alternatives
occurs somewhere in `s`. -/
def regexMatch (pattern s : String) : Bool :=
  (splitOnChar '|' pattern.data).any (fun alt => strContains s (String.mk alt))

/-- The table `requiredFields` of `validateExcelRow`: column index and name. -/
def requiredFields : List (Nat × String) :=
  [(0, "Keycloak type"), (1, "Keycloak environment"), (2, "Action"), (3, "Client ID"),
   (4, "Role name"), (5, "User logins")]

/-- The table `validators` of `validateExcelRow`: column index, pattern, and
the text of the message before the offending value. -/
def validators : List (Nat × String × String) :=
  [(0, validTypes, "неверный тип Keycloak: "), (1, validEnvironments, "неверное окружение: "),
   (2, validActions, "неверное действие: ")]

/-- Function `validateExcelRow` of excel_script.go. -/
def validateExcelRow (row : List String) (rowNum : Nat) : GoError :=
  if row.length < minColumnsCount then
    some ("WARN - строка " ++ toString rowNum ++ " содержит только " ++
      toString row.length ++ " колонок")
  else
    match requiredFields.find? (fun f => decide (trimSpace (row.getD f.1 "") = "")) with
    | some f => some ("строка " ++ toString rowNum ++ ": " ++ f.2 ++ " не может быть пустым")
    | none =>
      match validators.find? (fun v => !regexMatch v.2.1 (row.getD v.1 "")) with
      | some v => some ("WARN - " ++ v.2.2 ++ row.getD v.1 "" ++ ". Допустимые: " ++ v.2.1)
      | none => none

/-- Function `createHTTPClient` of excel_script.go: a new resty client (no
retries, wait times of 100 ms and 2 s, no retry condition) on which
`SetBaseURL`, which drops the slashes at the end of the URL, and `SetHeader`
are called. -/
def createHTTPClient (baseURL : String) : HttpClient :=
  { baseURL := trimRightSlash baseURL,
    headers := [("Content-Type", "Application/x-www-form-urlencoded")],
    authToken := "", retryCount := 0, retryWaitTime := 100, retryMaxWaitTime := 2000,
    retryConditions := [] }

/-- Function `parseLDAPs` of excel_script.go. -/
def parseLDAPs (ldaps : String) : List String :=
  if ldaps = "" then []
  else
    ((splitOnChar ',' ldaps.data).map (fun str => trimSpace (String.mk str))).filter
      (fun trimmed => decide (trimmed ≠ ""))

/-- Function `getRealmByInstance` of excel_script.go. -/
def getRealmByInstance (inst : String) : String :=
  if inst = "Employee" then "employee"
  else if inst = "Partner" then "partner"
  else if inst = "Customer" then "customer"
  else ""

/-- Function `getDomainByInstanceAndEnv` of excel_script.go. -/
def getDomainByInstanceAndEnv (inst environment : String) : String :=
  if inst = "Employee" then
    if environment = "Prod" then "employee.your_domain.ru"
    else if environment = "Dev" then "employee-dev.your_domain.ru"
    else if environment = "Test" then "employee-test.your_domain.ru"
    else ""
  else if inst = "Partner" then
    if environment = "Prod" then "partners.your_domain.ru"
    else if environment = "Dev" then "partners-dev.your_domain.ru"
    else if environment = "Test" then "partners-test.your_domain.ru"
    else ""
  else if inst = "Customer" then
    if environment = "Prod" then "customer.your_domain.ru"
    else if environment = "Dev" then "customer-dev.your_domain.ru"
    else if environment = "Test" then "customer-test.your_domain.ru"
    else ""
  else ""

/-- Function `getURLAndRealm` of excel_script.go. -/
def getURLAndRealm (inst environment : String) : String × String :=
  ("https://" ++ getDomainByInstanceAndEnv inst environment, getRealmByInstance inst)

/-- Function `createOperationFromRow` of excel_script.go. -/
def createOperationFromRow (row : List String) (rowNum : Nat) : Except String Operation :=
  match validateExcelRow row rowNum with
  | some e => Except.error e
  | none =>
    Except.ok
      { client := createHTTPClient (getURLAndRealm (row.getD 0 "") (row.getD 1 "")).1,
        ClientIdName := row.getD 3 "",
        realm := (getURLAndRealm (row.getD 0 "") (row.getD 1 "")).2,
        action := row.getD 2 "",
        roleName := row.getD 4 "",
        ldaps := parseLDAPs (row.getD 5 ""),
        ldapsString := row.getD 5 "",
        clientId := "", parentGroupId := "",
        errors := [], errorCounter := 0 }

/-- The loop of `processExcelRows` over the rows still to read; `i` is the loop index. -/
def processExcelRowsFrom : Nat → List (List String) → List Operation
  | _, [] => []
  | i, row :: rows =>
    match createOperationFromRow row (i + 2) with
    | Except.error _ => processExcelRowsFrom (i + 1) rows
    | Except.ok operation => operation :: processExcelRowsFrom (i + 1) rows

/-- Function `processExcelRows` of excel_script.go. -/
def processExcelRows (rows : List (List String)) : List Operation :=
  processExcelRowsFrom 0 rows

/-! ## How resty fills the path of a request -/

/-- The text that replaces a placeholder `key` of an endpoint template: the
escaped value of the path parameter of that name, or the placeholder itself,
braces included, when the request has no path parameter of that name. -/
def fillPlaceholder (escape : String → String) (params : List (String × String))
    (key : List Char) : List Char :=
  match params.find? (fun p => decide (p.1.data = key)) with
  | some p => (escape p.2).data
  | none => '\x7b' :: key ++ ['\x7d']

/-- One pass over the template, as resty makes it when it builds the URL of a
request; `fuel` bounds the number of characters still to read. -/
def expandTemplate (escape : String → String) (params : List (String × String)) :
    Nat → List Char → List Char
  | 0, rest => rest
  | _ + 1, [] => []
  | fuel + 1, c :: rest =>
    if c = '\x7b' then
      match rest.span (fun d => d != '\x7d') with
      | (key, _ :: after) =>
        (if key = [] then ['\x7b', '\x7d'] else fillPlaceholder escape params key) ++
          expandTemplate escape params fuel after
      | (_, []) => c :: rest
    else c :: expandTemplate escape params fuel rest

/-- The URL path of a request once resty has put the path parameters in;
`escape` is `url.PathEscape`. -/
def Request.path (escape : String → String) (r : Request) : String :=
  String.mk (expandTemplate escape r.pathParams r.url.data.length r.url.data)

/-! ## Vocabulary of the statements -/

/-- The kinds of call the program issues, told apart by method and endpoint
template (`childrenLookup` is the listing of the children of a group, which
`getGroupSubgroups` and `getSubGroupByName` both issue). -/
inductive Kind where
  | token | clientSearch | rolesGroupSearch | createClientSubgroup
  | roleLookup | groupLookup | childrenLookup | createRole | createSubGroup
  | roleMapping | userLookup | addMember | removeMember | other
deriving DecidableEq, Repr

/-- The kind of call a request is. -/
def Request.kind (r : Request) : Kind :=
  if r.method = Method.POST ∧ r.url = "/realms/{instance}/protocol/openid-connect/token"
  then Kind.token
  else if r.method = Method.GET ∧ r.url = "/admin/realms/{instance}/clients"
  then Kind.clientSearch
  else if r.method = Method.GET ∧ r.url = "/admin/realms/{realm}/groups"
  then Kind.rolesGroupSearch
  else if r.method = Method.POST ∧ r.url = "/admin/realms/{realm}/groups/{groupId}/children"
  then Kind.createClientSubgroup
  else if r.method = Method.GET ∧
    r.url = "/admin/realms/{instance}/clients/{clientId}/roles/{role}"
  then Kind.roleLookup
  else if r.method = Method.GET ∧ r.url = "/admin/realms/{instance}/groups/{group}"
  then Kind.groupLookup
  else if r.method = Method.GET ∧ r.url = "/admin/realms/{realm}/groups/{groupId}/children"
  then Kind.childrenLookup
  else if r.method = Method.POST ∧ r.url = "/admin/realms/{instance}/clients/{clientId}/roles"
  then Kind.createRole
  else if r.method = Method.POST ∧ r.url = "/admin/realms/{instance}/groups/{group}/children"
  then Kind.createSubGroup
  else if r.method = Method.POST ∧
    r.url = "/admin/realms/{instance}/groups/{groupId}/role-mappings/clients/{clientId}"
  then Kind.roleMapping
  else if r.method = Method.GET ∧ r.url = "/admin/realms/{instance}/users"
  then Kind.userLookup
  else if r.method = Method.PUT ∧
    r.url = "/admin/realms/{instance}/users/{userId}/groups/{groupId}"
  then Kind.addMember
  else if r.method = Method.DELETE ∧
    r.url = "/admin/realms/{instance}/users/{userId}/groups/{groupId}"
  then Kind.removeMember
  else Kind.other

/-- A role or subgroup lookup. -/
def Kind.isLookup (k : Kind) : Bool :=
  k = Kind.roleLookup || k = Kind.groupLookup || k = Kind.childrenLookup

/-- A role or subgroup creation. -/
def Kind.isCreate (k : Kind) : Bool :=
  k = Kind.createRole || k = Kind.createSubGroup

/-- A call of the grant or revoke path: role mapping, user lookup, add to
group, remove from group. -/
def Kind.isMembership (k : Kind) : Bool :=
  k = Kind.roleMapping || k = Kind.userLookup || k = Kind.addMember || k = Kind.removeMember

/-- From `w` to `w1` the trace has only grown, by requests that satisfy `P`. -/
def TraceGrows (P : Request → Bool) (w w1 : World) : Prop :=
  ∃ reqs : List Request, w1.trace = w.trace ++ reqs ∧ ∀ r ∈ reqs, P r = true

/-- From `w` to `w1` the request data of the operation and the cache are unchanged. -/
structure SameFields (w w1 : World) : Prop where
  ClientIdName : w1.op.ClientIdName = w.op.ClientIdName
  realm : w1.op.realm = w.op.realm
  action : w1.op.action = w.op.action
  roleName : w1.op.roleName = w.op.roleName
  ldaps : w1.op.ldaps = w.op.ldaps
  ldapsString : w1.op.ldapsString = w.op.ldapsString
  clientId : w1.op.clientId = w.op.clientId
  parentGroupId : w1.op.parentGroupId = w.op.parentGroupId
  cache : w1.clientIdCache = w.clientIdCache

/-- The ledger of `w1` is the ledger of `w` after `AddError` was called with
the messages of `msgs`, in that order, and nothing else. -/
def LedgerAdds (msgs : List String) (w w1 : World) : Prop :=
  w1.op.errors = (msgs.foldl (fun v m => AddError m v) w).op.errors ∧
  w1.op.errorCounter = w.op.errorCounter + msgs.length

/-- From `w` to `w1` at least one message was appended to the ledger, and
nothing else happened to it. -/
def LedgerGrew (w w1 : World) : Prop :=
  ∃ msgs : List String, msgs ≠ [] ∧ LedgerAdds msgs w w1

/-- The answer to the role lookup issued from `w`. -/
def findRoleAnswer (env : Env) (w : World) (roleName : String) : Response :=
  env.backend w.trace (findRoleRequest w.op roleName)

/-- The answer to the create-role call issued from `w`. -/
def createRoleAnswer (env : Env) (w : World) (roleName : String) : Response :=
  env.backend w.trace (createRoleRequest w.op roleName)

/-- The answer to the create-subgroup call issued from `w`. -/
def createSubGroupAnswer (env : Env) (w : World) (group : String) : Response :=
  env.backend w.trace (createSubGroupRequest w.op group)

/-- The answer to the first request of `getSubGroupByName` issued from `w`. -/
def parentAnswer (env : Env) (w : World) : Response :=
  env.backend w.trace (parentGroupRequest w.op)

/-- The answer to the second request of `getSubGroupByName` started in `w`. -/
def childrenAnswer (env : Env) (w : World) : Response :=
  env.backend (w.trace ++ [parentGroupRequest w.op])
    (childrenRequest w.op (env.json.group (parentAnswer env w).body).value.ID)

/-- The world in which `createAttempt`, started in `w`, issues its
confirmation lookup. -/
def atConfirm (env : Env) (w : World) : World :=
  createRole env w.op.roleName w

/-- The world in which `createAttempt`, started in `w`, issues its
create-subgroup call. -/
def atCreateSubGroup (env : Env) (w : World) : World :=
  (findRole env (atConfirm env w).op.roleName true (atConfirm env w)).1

/-- The world in which `createAttempt`, started in `w`, starts the lookup by
name that follows a 409 answer to the create-subgroup call. -/
def atFallback (env : Env) (w : World) : World :=
  (execute env (createSubGroupRequest (atCreateSubGroup env w).op
    (atCreateSubGroup env w).op.roleName) (atCreateSubGroup env w)).1

/-- The answer to the role-mapping call issued from `w`. -/
def mappingAnswer (env : Env) (w : World) (roleId subGroupId : String) : Response :=
  env.backend w.trace (assignRoleRequest w.op w.op.roleName roleId subGroupId)

/-- The backend never answers a user search with a status other than 200
unless the transport fails. -/
def SearchStatusOk (env : Env) : Prop :=
  ∀ (history : List Request) (req : Request), req.kind = Kind.userLookup →
    (env.backend history req).err = none → (env.backend history req).status = 200

/-- The answer to the token request issued from `w`. -/
def tokenAnswer (env : Env) (w : World) : Response :=
  env.backend w.trace (tokenRequest env w.op)

/-- The answer to the client search issued from `w`. -/
def clientAnswer (env : Env) (w : World) : Response :=
  env.backend w.trace (clientSearchRequest w.op)

/-- The answer to the search for the container group issued from `w`. -/
def containerAnswer (env : Env) (w : World) : Response :=
  env.backend w.trace (rolesGroupSearchRequest w.op)

/-- The answer to the creation of the client's group issued from `w`. -/
def clientGroupAnswer (env : Env) (w : World) (parentGroupID : String) : Response :=
  env.backend w.trace (createClientSubgroupRequest w.op parentGroupID)

/-- The answer to the add-to-group call issued from `w`. -/
def addMemberAnswer (env : Env) (w : World) (userId groupId : String) : Response :=
  env.backend w.trace (addMemberRequest w.op userId groupId)

/-- The answer to the remove-from-group call issued from `w`. -/
def removeMemberAnswer (env : Env) (w : World) (userId groupId : String) : Response :=
  env.backend w.trace (removeMemberRequest w.op userId groupId)

/-- The world after `AddError` was called with the messages of `msgs`, in that order. -/
def addErrors (msgs : List String) (w : World) : World :=
  msgs.foldl (fun v m => AddError m v) w

/-- The entries of a ledger in ledger order: by increasing sequence number. -/
def ledgerOrder (m : GoMap Nat String) : List (Nat × String) :=
  m.insertionSort (fun a b => a.1 ≤ b.1)

/-- A walk of the ledger that starts at its last entry: by decreasing
sequence number. -/
def latestFirst (m : GoMap Nat String) : List (Nat × String) :=
  (ledgerOrder m).reverse

/-- The world in which `processOperation` calls `Authenticate`: the first line
is logged and the progress bar is new. -/
def atStart (index total : Nat) (w : World) : World :=
  logInfo "Обработка операции %d/%d: %s - %s"
    [toString (index + 1), toString total, w.op.action, w.op.roleName]
    { w with bar := 0, barMax := w.op.ldaps.length }

/-- The world once `checkRateLimit` has waited on the limiter. -/
def afterWait (w : World) : World :=
  { w with waits := w.waits + 1 }

/-- The world once `getUserIdByLdap` has waited and `searchUser` has executed
its request for `ldap`. -/
def afterSearch (w : World) (ldap : String) : World :=
  { w with waits := w.waits + 1, trace := w.trace ++ [userSearchRequest w.op ldap] }

/-- The answer of the backend to the user search for `ldap` issued from `w`. -/
def searchAnswer (env : Env) (w : World) (ldap : String) : Response :=
  env.backend w.trace (userSearchRequest w.op ldap)

/-! ## Sample data used to exercise the theorems on concrete inputs -/

/-- A freshly built HTTP client, as `createHTTPClient` returns it. -/
def sampleClient : HttpClient :=
  createHTTPClient "https://employee-test.your_domain.ru"

/-- An operation as `createOperationFromRow` builds it for the row
`Employee, Test, <action>, billing, Auditor, "alice, bob"`. -/
def sampleOp (action : String) : Operation :=
  { client := sampleClient, ClientIdName := "billing", realm := "employee",
    action := action, roleName := "Auditor", ldaps := ["alice", "bob"],
    ldapsString := "alice, bob", clientId := "", parentGroupId := "",
    errors := [], errorCounter := 0 }

/-- The world at the start of the processing of `sampleOp action`. -/
def sampleWorld (action : String) : World :=
  { op := sampleOp action, clientIdCache := [], trace := [], waits := 0, bar := 0,
    barMax := 2, logFile := [], stdlog := [], console := [] }

/-- The zero value of `Session`. -/
def emptySession : Session :=
  { AccessToken := "", ExpiresIn := 0, RefreshExpiresIn := 0, RefreshToken := "",
    TokenType := "", NotBeforePolicy := 0, SessionState := "", Scope := "" }

/-- What `json.Unmarshal` gives on the few bodies used in the examples: the
text `[]`, the texts `one` and `two` standing for arrays of one and two
objects with identifiers `id-1` and `id-2`, the text `obj` standing for an
object with identifier `id-1`, the text `err` standing for the error object
Keycloak sends with a failure status (no identifier, no access token), and
anything else being no JSON at all. -/
def sampleCodec : Codec :=
  { clients := fun b =>
      if b = "[]" then ⟨[], none⟩
      else if b = "one" then ⟨[⟨"id-1", "billing", "Billing"⟩], none⟩
      else if b = "two" then
        ⟨[⟨"id-1", "billing", "Billing"⟩, ⟨"id-2", "billing-old", "Billing"⟩], none⟩
      else ⟨[], some "invalid character"⟩,
    groups := fun b =>
      if b = "[]" then ⟨[], none⟩
      else if b = "one" then ⟨[Group.mk "id-1" "Auditor" []], none⟩
      else if b = "two" then ⟨[Group.mk "id-1" "Auditor" [], Group.mk "id-2" "Other" []], none⟩
      else ⟨[], some "invalid character"⟩,
    group := fun b =>
      if b = "obj" then ⟨Group.mk "id-1" "billing" [], none⟩
      else if b = "err" then ⟨Group.mk "" "" [], none⟩
      else ⟨Group.mk "" "" [], some "invalid character"⟩,
    roleResponse := fun b =>
      if b = "obj" then ⟨⟨"id-1"⟩, none⟩
      else if b = "err" then ⟨⟨""⟩, none⟩
      else ⟨⟨""⟩, some "invalid character"⟩,
    users := fun b =>
      if b = "[]" then ⟨[], none⟩
      else if b = "one" then ⟨[⟨"id-1"⟩], none⟩
      else if b = "two" then ⟨[⟨"id-1"⟩, ⟨"id-2"⟩], none⟩
      else ⟨[], some "invalid character"⟩,
    session := fun b =>
      if b = "obj" then ⟨{ emptySession with AccessToken := "token-1" }, none⟩
      else if b = "err" then ⟨emptySession, none⟩
      else ⟨emptySession, some "invalid character"⟩ }

/-- An environment whose backend gives the same answer to every request. -/
def constEnv (res : Response) : Env :=
  { backend := fun _ _ => res, limiter := fun _ => true, json := sampleCodec,
    keycloakUser := "admin", keycloakPass := "secret", mapOrder := id }

/-- An environment whose backend answers by the kind of the call. -/
def kindEnv (answers : Kind → Response) : Env :=
  { backend := fun _ r => answers r.kind, limiter := fun _ => true, json := sampleCodec,
    keycloakUser := "admin", keycloakPass := "secret", mapOrder := id }

/-- A backend on which the role `Auditor`, its subgroup and every user exist
and every call succeeds. -/
def allGood : Kind → Response
  | Kind.roleLookup => ⟨none, 200, "obj"⟩
  | Kind.groupLookup => ⟨none, 200, "obj"⟩
  | Kind.childrenLookup => ⟨none, 200, "one"⟩
  | Kind.createRole => ⟨none, 201, ""⟩
  | Kind.createSubGroup => ⟨none, 201, "obj"⟩
  | Kind.roleMapping => ⟨none, 204, ""⟩
  | Kind.userLookup => ⟨none, 200, "one"⟩
  | Kind.addMember => ⟨none, 204, ""⟩
  | Kind.removeMember => ⟨none, 204, ""⟩
  | Kind.token => ⟨none, 200, "obj"⟩
  | Kind.clientSearch => ⟨none, 200, "one"⟩
  | Kind.rolesGroupSearch => ⟨none, 200, "one"⟩
  | Kind.createClientSubgroup => ⟨none, 201, "obj"⟩
  | Kind.other => ⟨none, 404, "err"⟩

/-- A backend on which the role `Auditor` exists but its subgroup does not:
the children of the client's group are an empty list. -/
def roleOnly : Kind → Response
  | Kind.childrenLookup => ⟨none, 200, "[]"⟩
  | k => allGood k

/-- A backend on which neither the role nor its subgroup exists at first; the
role can be created (the role lookup finds it once a create-role call has
been made), but the create-subgroup call is answered 409 Conflict while the
listing of the children of the client's group does not show the subgroup. -/
def conflictBackend : List Request → Request → Response := fun history r =>
  match r.kind with
  | Kind.roleLookup =>
    if history.any (fun q => decide (q.kind = Kind.createRole)) then ⟨none, 200, "obj"⟩
    else ⟨none, 404, "err"⟩
  | Kind.createSubGroup => ⟨none, 409, "err"⟩
  | Kind.childrenLookup => ⟨none, 200, "[]"⟩
  | k => allGood k

/-- The environment of `conflictBackend`. -/
def conflictEnv : Env :=
  { backend := conflictBackend, limiter := fun _ => true, json := sampleCodec,
    keycloakUser := "admin", keycloakPass := "secret", mapOrder := id }

/-- A backend on which neither the role nor its subgroup exists and the role
lookup keeps answering 404, also after the create-role call. -/
def roleNeverFound : Kind → Response
  | Kind.roleLookup => ⟨none, 404, "err"⟩
  | Kind.childrenLookup => ⟨none, 200, "[]"⟩
  | k => allGood k

/-- A backend on which everything exists but the role-mapping call is
answered 500. -/
def mappingFails : Kind → Response
  | Kind.roleMapping => ⟨none, 500, "err"⟩
  | k => allGood k

/-- A backend on which the token endpoint rejects the credentials: status
401, no transport error, the JSON error object as body. -/
def tokenRejected : Kind → Response
  | Kind.token => ⟨none, 401, "err"⟩
  | k => allGood k

/-- A backend on which the user search is answered 403 Forbidden (no
transport error, the JSON error object as body). -/
def searchForbidden : Kind → Response
  | Kind.userLookup => ⟨none, 403, "err"⟩
  | k => allGood k

/-- A backend on which no user is known: every user search is answered 200
with an empty array. -/
def noUsers : Kind → Response
  | Kind.userLookup => ⟨none, 200, "[]"⟩
  | k => allGood k

/-- The environment of a binary built without the Keycloak credentials. -/
def noCredentials : Env :=
  { backend := fun _ r => allGood r.kind, limiter := fun _ => true, json := sampleCodec,
    keycloakUser := "", keycloakPass := "", mapOrder := id }

/-- A backend on which the search for the container group `Roles` is
answered 200 with an empty array. -/
def noContainer : Kind → Response
  | Kind.rolesGroupSearch => ⟨none, 200, "[]"⟩
  | k => allGood k

/-- An operation for the same client name as `sampleOp` in another
environment: the row `Partner, Prod, <action>, billing, Auditor, "carol"`. -/
def partnerOp (action : String) : Operation :=
  { client := createHTTPClient "https://partners.your_domain.ru", ClientIdName := "billing",
    realm := "partner", action := action, roleName := "Auditor", ldaps := ["carol"],
    ldapsString := "carol", clientId := "", parentGroupId := "",
    errors := [], errorCounter := 0 }

/-- A backend on which the client search finds two clients. -/
def twoClients : Kind → Response
  | Kind.clientSearch => ⟨none, 200, "two"⟩
  | k => allGood k

/-- A backend on which the group of the client is not among the children of
the container and its creation is answered 409 Conflict. -/
def clientGroupConflict : Kind → Response
  | Kind.childrenLookup => ⟨none, 200, "[]"⟩
  | Kind.createClientSubgroup => ⟨none, 409, "err"⟩
  | k => allGood k

/-- A backend on which the subgroup `Auditor` exists and the create-subgroup
call is answered 409 Conflict. -/
def subGroupConflict : Kind → Response
  | Kind.createSubGroup => ⟨none, 409, "err"⟩
  | k => allGood k

/-- A row of the sheet whose Keycloak type is not one of the three allowed
values but contains one of them. -/
def rowEmployees : List String :=
  ["Employees", "Prod", "Associate users with role", "billing", "Auditor", "alice, bob"]

/-- A row of the sheet whose action is not one of the three allowed values
but contains one of them. -/
def rowRemoveLater : List String :=
  ["Employee", "Prod", "Remove users from role later", "billing", "Auditor", "alice"]

/-! ## Frame lemmas -/

/-- A successful `fetchClients` has only extended the trace. -/
theorem fetchClients_ok (env : Env) (w w1 : World) (clients : List Client)
    (h : fetchClients env w = (w1, Except.ok clients)) :
    w1.op = w.op ∧ w1.clientIdCache = w.clientIdCache := by
  unfold fetchClients at h
  simp only [execute] at h
  split at h
  · simp at h
  · unfold parseClientsResponse at h
    split at h
    · simp at h
    · simp only [Prod.mk.injEq] at h
      rw [← h.1]
      exact ⟨rfl, rfl⟩

theorem Kind.lookup_not_membership (k : Kind) (h : k.isLookup = true) :
    (!k.isMembership) = true := by
  revert h
  cases k <;> simp [Kind.isLookup, Kind.isMembership]

theorem TraceGrows.nothing (P : Request → Bool) (w : World) : TraceGrows P w w :=
  ⟨[], by simp, by simp⟩

theorem TraceGrows.chain {P : Request → Bool} {a b c : World}
    (h1 : TraceGrows P a b) (h2 : TraceGrows P b c) : TraceGrows P a c := by
  obtain ⟨r1, e1, p1⟩ := h1
  obtain ⟨r2, e2, p2⟩ := h2
  refine ⟨r1 ++ r2, by rw [e2, e1, List.append_assoc], ?_⟩
  intro r hr
  rcases List.mem_append.mp hr with h | h
  · exact p1 r h
  · exact p2 r h

theorem TraceGrows.mono {P Q : Request → Bool} {a b : World}
    (h : TraceGrows P a b) (hPQ : ∀ r, P r = true → Q r = true) : TraceGrows Q a b := by
  obtain ⟨r1, e1, p1⟩ := h
  exact ⟨r1, e1, fun r hr => hPQ r (p1 r hr)⟩

theorem TraceGrows.of_trace_eq {P : Request → Bool} {a b : World}
    (h : b.trace = a.trace) : TraceGrows P a b :=
  ⟨[], by simp [h], by simp⟩

theorem SameFields.unchanged (w : World) : SameFields w w :=
  ⟨rfl, rfl, rfl, rfl, rfl, rfl, rfl, rfl, rfl⟩

theorem SameFields.andThen {a b c : World} (h1 : SameFields a b) (h2 : SameFields b c) :
    SameFields a c :=
  ⟨h2.ClientIdName.trans h1.ClientIdName, h2.realm.trans h1.realm, h2.action.trans h1.action,
   h2.roleName.trans h1.roleName, h2.ldaps.trans h1.ldaps,
   h2.ldapsString.trans h1.ldapsString, h2.clientId.trans h1.clientId,
   h2.parentGroupId.trans h1.parentGroupId, h2.cache.trans h1.cache⟩

theorem LedgerAdds.nil_of_eq {w w1 : World} (h1 : w1.op.errors = w.op.errors)
    (h2 : w1.op.errorCounter = w.op.errorCounter) : LedgerAdds [] w w1 :=
  ⟨by simpa using h1, by simpa using h2⟩

theorem LedgerAdds.one_of_eq {w w0 : World} (msg : String) (h1 : w0.op.errors = w.op.errors)
    (h2 : w0.op.errorCounter = w.op.errorCounter) : LedgerAdds [msg] w (AddError msg w0) := by
  constructor
  · simp [AddError, h1, h2]
  · simp [AddError, h2]

theorem foldl_addError_congr (msgs : List String) :
    ∀ w v : World, w.op.errors = v.op.errors → w.op.errorCounter = v.op.errorCounter →
      (msgs.foldl (fun v m => AddError m v) w).op.errors =
        (msgs.foldl (fun v m => AddError m v) v).op.errors ∧
      (msgs.foldl (fun v m => AddError m v) w).op.errorCounter =
        (msgs.foldl (fun v m => AddError m v) v).op.errorCounter := by
  induction msgs with
  | nil => intro w v h1 h2; exact ⟨h1, h2⟩
  | cons m ms ih =>
    intro w v h1 h2
    simp only [List.foldl_cons]
    apply ih
    · simp [AddError, h1, h2]
    · simp [AddError, h2]

theorem foldl_addError_counter (msgs : List String) :
    ∀ w : World, (msgs.foldl (fun v m => AddError m v) w).op.errorCounter =
      w.op.errorCounter + msgs.length := by
  induction msgs with
  | nil => intro w; simp
  | cons m ms ih =>
    intro w
    simp only [List.foldl_cons, List.length_cons]
    rw [ih]
    simp only [AddError]
    omega

theorem LedgerAdds.append {m1 m2 : List String} {a b c : World}
    (h1 : LedgerAdds m1 a b) (h2 : LedgerAdds m2 b c) : LedgerAdds (m1 ++ m2) a c := by
  obtain ⟨e1, c1⟩ := h1
  obtain ⟨e2, c2⟩ := h2
  have hc : b.op.errorCounter = (m1.foldl (fun v m => AddError m v) a).op.errorCounter := by
    rw [foldl_addError_counter, c1]
  constructor
  · rw [e2, List.foldl_append]
    exact (foldl_addError_congr m2 _ _ e1 hc).1
  · rw [c2, c1, List.length_append]
    omega

/-! ## The calls of role.go one by one -/

theorem findRole_trace (env : Env) (n : String) (c : Bool) (w : World) :
    (findRole env n c w).1.trace = w.trace ++ [findRoleRequest w.op n] := by
  unfold findRole
  simp only [execute]
  split_ifs <;> rfl

theorem findRole_same (env : Env) (n : String) (c : Bool) (w : World) :
    SameFields w (findRole env n c w).1 := by
  unfold findRole
  simp only [execute]
  split_ifs <;> exact ⟨rfl, rfl, rfl, rfl, rfl, rfl, rfl, rfl, rfl⟩

theorem findRole_plain_ledger (env : Env) (n : String) (w : World) :
    LedgerAdds [] w (findRole env n false w).1 := by
  unfold findRole
  simp only [execute]
  split
  · next h => simp at h
  · exact LedgerAdds.nil_of_eq rfl rfl

theorem createRole_trace (env : Env) (n : String) (w : World) :
    (createRole env n w).trace = w.trace ++ [createRoleRequest w.op n] := by
  unfold createRole
  simp only [execute]
  split_ifs <;> rfl

theorem createRole_same (env : Env) (n : String) (w : World) :
    SameFields w (createRole env n w) := by
  unfold createRole
  simp only [execute]
  split_ifs <;> exact ⟨rfl, rfl, rfl, rfl, rfl, rfl, rfl, rfl, rfl⟩

theorem getSubGroupByName_same (env : Env) (n : String) (w : World) :
    SameFields w (getSubGroupByName env n w).1 := by
  unfold getSubGroupByName
  simp only [execute]
  repeat' split
  all_goals exact ⟨rfl, rfl, rfl, rfl, rfl, rfl, rfl, rfl, rfl⟩

theorem getSubGroupByName_trace (env : Env) (n : String) (w : World) :
    TraceGrows (fun r => r.kind.isLookup) w (getSubGroupByName env n w).1 := by
  have h1 : ∀ v : World, v.trace = w.trace ++ [parentGroupRequest w.op] →
      TraceGrows (fun r => r.kind.isLookup) w v := fun v hv =>
    ⟨[parentGroupRequest w.op], hv, by simp [parentGroupRequest, Request.kind, Kind.isLookup]⟩
  have h2 : ∀ (g : String) (v : World),
      v.trace = w.trace ++ [parentGroupRequest w.op] ++ [childrenRequest w.op g] →
      TraceGrows (fun r => r.kind.isLookup) w v := fun g v hv =>
    ⟨[parentGroupRequest w.op, childrenRequest w.op g], by simpa using hv,
      by simp [parentGroupRequest, childrenRequest, Request.kind, Kind.isLookup]⟩
  unfold getSubGroupByName
  simp only [execute]
  repeat' split
  all_goals first | exact h1 _ rfl | exact h2 _ _ rfl

theorem createSubGroup_same (env : Env) (g : String) (w : World) :
    SameFields w (createSubGroup env g w).1 := by
  unfold createSubGroup
  simp only [execute]
  split_ifs
  · exact (SameFields.unchanged _).andThen
      ((show SameFields w { w with trace := w.trace ++ [createSubGroupRequest w.op g] } from
        ⟨rfl, rfl, rfl, rfl, rfl, rfl, rfl, rfl, rfl⟩).andThen (getSubGroupByName_same env g _))
  · exact ⟨rfl, rfl, rfl, rfl, rfl, rfl, rfl, rfl, rfl⟩
  · exact ⟨rfl, rfl, rfl, rfl, rfl, rfl, rfl, rfl, rfl⟩

theorem createSubGroup_trace (env : Env) (g : String) (w : World) :
    ∃ rest : List Request,
      (createSubGroup env g w).1.trace = w.trace ++ createSubGroupRequest w.op g :: rest ∧
      ∀ r ∈ rest, r.kind.isLookup = true := by
  unfold createSubGroup
  simp only [execute]
  split_ifs
  · obtain ⟨rest, e, p⟩ := getSubGroupByName_trace env g
      { w with trace := w.trace ++ [createSubGroupRequest w.op g] }
    exact ⟨rest, by rw [e]; simp, p⟩
  · exact ⟨[], rfl, by simp⟩
  · exact ⟨[], rfl, by simp⟩

theorem assignRole_trace (env : Env) (role id g : String) (w : World) :
    (assignRole env role id g w).trace = w.trace ++ [assignRoleRequest w.op role id g] := by
  unfold assignRole
  simp only [execute]
  split_ifs <;> rfl

theorem assignRole_same (env : Env) (role id g : String) (w : World) :
    SameFields w (assignRole env role id g w) := by
  unfold assignRole
  simp only [execute]
  split_ifs <;> exact ⟨rfl, rfl, rfl, rfl, rfl, rfl, rfl, rfl, rfl⟩

theorem addMember_trace (env : Env) (u g : String) (w : World) :
    (addMember env u g w).trace = w.trace ++ [addMemberRequest w.op u g] := by
  unfold addMember
  simp only [execute]
  split_ifs <;> rfl

theorem removeMember_trace (env : Env) (u g : String) (w : World) :
    (removeMember env u g w).trace = w.trace ++ [removeMemberRequest w.op u g] := by
  unfold removeMember
  simp only [execute]
  split_ifs <;> rfl

theorem addMember_same (env : Env) (u g : String) (w : World) :
    SameFields w (addMember env u g w) := by
  unfold addMember
  simp only [execute]
  split_ifs <;> exact ⟨rfl, rfl, rfl, rfl, rfl, rfl, rfl, rfl, rfl⟩

theorem removeMember_same (env : Env) (u g : String) (w : World) :
    SameFields w (removeMember env u g w) := by
  unfold removeMember
  simp only [execute]
  split_ifs <;> exact ⟨rfl, rfl, rfl, rfl, rfl, rfl, rfl, rfl, rfl⟩

/-! ## What each call of role.go adds to the ledger -/

theorem LedgerAdds.grows_refl (w : World) : ∃ msgs : List String, LedgerAdds msgs w w :=
  ⟨[], LedgerAdds.nil_of_eq rfl rfl⟩

theorem LedgerGrew.of_one {w w1 : World} {msg : String} (h : LedgerAdds [msg] w w1) :
    LedgerGrew w w1 :=
  ⟨[msg], by simp, h⟩

theorem LedgerGrew.then_grows {a b c : World} (h1 : LedgerGrew a b)
    (h2 : ∃ msgs : List String, LedgerAdds msgs b c) : LedgerGrew a c := by
  obtain ⟨m1, hne, l1⟩ := h1
  obtain ⟨m2, l2⟩ := h2
  exact ⟨m1 ++ m2, by simp [hne], l1.append l2⟩

theorem LedgerGrew.after_grows {a b c : World}
    (h1 : ∃ msgs : List String, LedgerAdds msgs a b) (h2 : LedgerGrew b c) : LedgerGrew a c := by
  obtain ⟨m1, l1⟩ := h1
  obtain ⟨m2, hne, l2⟩ := h2
  exact ⟨m1 ++ m2, by simp [hne], l1.append l2⟩

theorem LedgerAdds.grows_trans {a b c : World}
    (h1 : ∃ msgs : List String, LedgerAdds msgs a b)
    (h2 : ∃ msgs : List String, LedgerAdds msgs b c) :
    ∃ msgs : List String, LedgerAdds msgs a c := by
  obtain ⟨m1, l1⟩ := h1
  obtain ⟨m2, l2⟩ := h2
  exact ⟨m1 ++ m2, l1.append l2⟩

theorem createRole_fail (env : Env) (n : String) (w : World)
    (h : (createRoleAnswer env w n).err ≠ none ∨ (createRoleAnswer env w n).status ≠ 201)
    (hb : strContains (createRoleAnswer env w n).string "already exists" = false) :
    createRole env n w =
      AddError ("Ошибка создания роли " ++ n ++ " причина в " ++
        (createRoleAnswer env w n).string ++ ", статус: " ++
        toString (createRoleAnswer env w n).status) (execute env (createRoleRequest w.op n) w).1 := by
  unfold createRoleAnswer at h hb
  unfold createRole
  simp only [execute]
  rw [if_pos h]
  simp [hb, createRoleAnswer]

theorem createRole_grows (env : Env) (n : String) (w : World) :
    ∃ msgs : List String, LedgerAdds msgs w (createRole env n w) := by
  unfold createRole
  simp only [execute]
  repeat' split
  · exact ⟨[_], LedgerAdds.one_of_eq _ rfl rfl⟩
  · exact ⟨[], LedgerAdds.nil_of_eq rfl rfl⟩
  · exact ⟨[], LedgerAdds.nil_of_eq rfl rfl⟩

theorem findRole_confirm_fail (env : Env) (n : String) (w : World)
    (h : (findRoleAnswer env w n).err ≠ none ∨ (findRoleAnswer env w n).status ≠ 200) :
    LedgerAdds ["Не удается найти роль " ++ n ++ " причина " ++ (findRoleAnswer env w n).string ++
      ", вызвана " ++ toString (findRoleAnswer env w n).status] w (findRole env n true w).1 ∧
    (findRole env n true w).2 = "" := by
  unfold findRoleAnswer at h
  unfold findRole
  simp only [execute]
  rw [if_pos ⟨h, trivial⟩]
  exact ⟨LedgerAdds.one_of_eq _ rfl rfl, rfl⟩

theorem findRole_grows (env : Env) (n : String) (c : Bool) (w : World) :
    ∃ msgs : List String, LedgerAdds msgs w (findRole env n c w).1 := by
  unfold findRole
  simp only [execute]
  split
  · exact ⟨[_], LedgerAdds.one_of_eq _ rfl rfl⟩
  · exact ⟨[], LedgerAdds.nil_of_eq rfl rfl⟩

theorem getSubGroupByName_parent_fail (env : Env) (n : String) (w : World)
    (h : (parentAnswer env w).err ≠ none ∨ (parentAnswer env w).status ≠ 200) :
    LedgerAdds ["Не удалось найти группу " ++ n ++ " причина " ++
      toString (parentAnswer env w).status] w (getSubGroupByName env n w).1 ∧
    (getSubGroupByName env n w).2 = "" := by
  unfold parentAnswer at h
  unfold getSubGroupByName
  simp only [execute]
  rw [if_pos h]
  exact ⟨LedgerAdds.one_of_eq _ rfl rfl, rfl⟩

theorem getSubGroupByName_children_transport (env : Env) (n : String) (w : World) (e : String)
    (h : ¬ ((parentAnswer env w).err ≠ none ∨ (parentAnswer env w).status ≠ 200))
    (hc : (childrenAnswer env w).err = some e) :
    LedgerAdds ["Ошибка запроса подгрупп: " ++ e] w (getSubGroupByName env n w).1 ∧
    (getSubGroupByName env n w).2 = "" := by
  unfold childrenAnswer at hc
  unfold parentAnswer at h hc
  unfold getSubGroupByName
  simp only [execute]
  rw [if_neg h]
  simp only [hc]
  exact ⟨LedgerAdds.one_of_eq _ rfl rfl, by trivial⟩

theorem getSubGroupByName_children_status (env : Env) (n : String) (w : World)
    (h : ¬ ((parentAnswer env w).err ≠ none ∨ (parentAnswer env w).status ≠ 200))
    (hc : (childrenAnswer env w).err = none) (hs : (childrenAnswer env w).status ≠ 200) :
    LedgerAdds ["HTTP " ++ toString (childrenAnswer env w).status ++
      ": не удалось получить подгруппы"] w (getSubGroupByName env n w).1 ∧
    (getSubGroupByName env n w).2 = "" := by
  unfold childrenAnswer at hc hs
  unfold parentAnswer at h hc hs
  unfold getSubGroupByName
  simp only [execute]
  rw [if_neg h]
  simp only [hc]
  rw [if_pos hs]
  exact ⟨LedgerAdds.one_of_eq _ rfl rfl, by trivial⟩

theorem getSubGroupByName_grows (env : Env) (n : String) (w : World) :
    ∃ msgs : List String, LedgerAdds msgs w (getSubGroupByName env n w).1 := by
  unfold getSubGroupByName
  simp only [execute]
  repeat' split
  all_goals first
    | exact ⟨[_], LedgerAdds.one_of_eq _ rfl rfl⟩
    | exact ⟨[], LedgerAdds.nil_of_eq rfl rfl⟩

theorem createSubGroup_fail (env : Env) (g : String) (w : World)
    (h : (createSubGroupAnswer env w g).err ≠ none ∨ (createSubGroupAnswer env w g).status ≠ 201)
    (hc : (createSubGroupAnswer env w g).status ≠ 409) :
    LedgerAdds ["Ошибка создания группы " ++ g ++ " причина в " ++
      (createSubGroupAnswer env w g).string ++ ", статус " ++
      toString (createSubGroupAnswer env w g).status] w (createSubGroup env g w).1 ∧
    (createSubGroup env g w).2 = "" := by
  unfold createSubGroupAnswer at h hc
  unfold createSubGroup
  simp only [execute]
  rw [if_pos h, if_neg hc]
  exact ⟨LedgerAdds.one_of_eq _ rfl rfl, rfl⟩

theorem createSubGroup_conflict (env : Env) (g : String) (w : World)
    (hc : (createSubGroupAnswer env w g).status = 409) :
    createSubGroup env g w =
      getSubGroupByName env g (execute env (createSubGroupRequest w.op g) w).1 := by
  unfold createSubGroupAnswer at hc
  unfold createSubGroup
  simp only [execute]
  rw [if_pos (Or.inr (by rw [hc]; decide)), if_pos hc]

theorem createSubGroup_grows (env : Env) (g : String) (w : World) :
    ∃ msgs : List String, LedgerAdds msgs w (createSubGroup env g w).1 := by
  unfold createSubGroup
  simp only [execute]
  repeat' split
  · have h1 : ∃ msgs : List String,
        LedgerAdds msgs w (execute env (createSubGroupRequest w.op g) w).1 :=
      ⟨[], LedgerAdds.nil_of_eq rfl rfl⟩
    exact LedgerAdds.grows_trans h1 (getSubGroupByName_grows env g _)
  · exact ⟨[_], LedgerAdds.one_of_eq _ rfl rfl⟩
  · exact ⟨[], LedgerAdds.nil_of_eq rfl rfl⟩

theorem lookups_same (env : Env) (w : World) : SameFields w (lookups env w).1 :=
  (findRole_same env w.op.roleName false w).andThen (getSubGroupByName_same env _ _)

theorem lookups_trace (env : Env) (w : World) :
    TraceGrows (fun r => r.kind.isLookup) w (lookups env w).1 := by
  have h1 : TraceGrows (fun r => r.kind.isLookup) w (findRole env w.op.roleName false w).1 :=
    ⟨[findRoleRequest w.op w.op.roleName], findRole_trace _ _ _ _,
      by simp [findRoleRequest, Request.kind, Kind.isLookup]⟩
  exact h1.chain (getSubGroupByName_trace env _ _)

/-! ## The calls of user.go and the two loops -/

theorem getUserIdByLdap_limited (env : Env) (ldap : String) (w : World)
    (h : env.limiter w.waits = false) :
    getUserIdByLdap env ldap w =
      Run.ok (AddError ("Превышен лимит запросов для LDAP: " ++ ldap) (afterWait w)) "" := by
  simp [getUserIdByLdap, checkRateLimit, h, afterWait]

theorem getUserIdByLdap_transport (env : Env) (ldap : String) (w : World) (e : String)
    (h : env.limiter w.waits = true) (he : (searchAnswer env w ldap).err = some e) :
    getUserIdByLdap env ldap w =
      Run.ok (AddError ("Ошибка поиска LDAP: " ++ ldap ++ ", статус: " ++
        toString (searchAnswer env w ldap).status) (afterSearch w ldap)) "" := by
  unfold searchAnswer at he
  simp [getUserIdByLdap, checkRateLimit, h, searchUser, execute, he, afterSearch, searchAnswer]

theorem getUserIdByLdap_status (env : Env) (ldap : String) (w : World)
    (h : env.limiter w.waits = true) (he : (searchAnswer env w ldap).err = none)
    (hs : (searchAnswer env w ldap).status ≠ 200) :
    getUserIdByLdap env ldap w =
      Run.panic (AddError ("Ошибка поиска LDAP: " ++ ldap ++ ", статус: " ++
        toString (searchAnswer env w ldap).status) (afterSearch w ldap)) := by
  unfold searchAnswer at he hs
  simp [getUserIdByLdap, checkRateLimit, h, searchUser, execute, he, hs, afterSearch,
    searchAnswer, parseUserResponse]

theorem getUserIdByLdap_unparseable (env : Env) (ldap : String) (w : World) (e : String)
    (h : env.limiter w.waits = true) (he : (searchAnswer env w ldap).err = none)
    (hs : (searchAnswer env w ldap).status = 200)
    (hd : (env.json.users (searchAnswer env w ldap).body).err = some e) :
    getUserIdByLdap env ldap w =
      Run.ok (AddError ("Ошибка парсинга пользователя: " ++ ldap) (afterSearch w ldap)) "" := by
  unfold searchAnswer at he hs hd
  simp [getUserIdByLdap, checkRateLimit, h, searchUser, execute, he, hs, hd, afterSearch,
    parseUserResponse]

theorem getUserIdByLdap_missing (env : Env) (ldap : String) (w : World)
    (h : env.limiter w.waits = true) (he : (searchAnswer env w ldap).err = none)
    (hs : (searchAnswer env w ldap).status = 200)
    (hd : (env.json.users (searchAnswer env w ldap).body).err = none)
    (hv : (env.json.users (searchAnswer env w ldap).body).value = []) :
    getUserIdByLdap env ldap w =
      Run.ok (AddError ("LDAP не найден: " ++ ldap) (afterSearch w ldap)) "" := by
  unfold searchAnswer at he hs hd hv
  simp [getUserIdByLdap, checkRateLimit, h, searchUser, execute, he, hs, hd, hv, afterSearch,
    parseUserResponse]

theorem getUserIdByLdap_found (env : Env) (ldap : String) (w : World) (u : UserResponse)
    (us : List UserResponse)
    (h : env.limiter w.waits = true) (he : (searchAnswer env w ldap).err = none)
    (hs : (searchAnswer env w ldap).status = 200)
    (hd : (env.json.users (searchAnswer env w ldap).body).err = none)
    (hv : (env.json.users (searchAnswer env w ldap).body).value = u :: us) :
    getUserIdByLdap env ldap w = Run.ok (afterSearch w ldap) u.Id := by
  unfold searchAnswer at he hs hd hv
  simp [getUserIdByLdap, checkRateLimit, h, searchUser, execute, he, hs, hd, hv, afterSearch,
    parseUserResponse]

/-- Every outcome of `getUserIdByLdap`: the world it ends in is the world after
the wait or after the search, with at most one message added. -/
theorem getUserIdByLdap_cases (env : Env) (ldap : String) (w : World) :
    (∃ msg, getUserIdByLdap env ldap w = Run.ok (AddError msg (afterWait w)) "") ∨
    (∃ msg, getUserIdByLdap env ldap w = Run.ok (AddError msg (afterSearch w ldap)) "") ∨
    (∃ msg, getUserIdByLdap env ldap w = Run.panic (AddError msg (afterSearch w ldap))) ∨
    (∃ id, getUserIdByLdap env ldap w = Run.ok (afterSearch w ldap) id) := by
  cases h : env.limiter w.waits with
  | false => exact Or.inl ⟨_, getUserIdByLdap_limited env ldap w h⟩
  | true =>
    cases he : (searchAnswer env w ldap).err with
    | some e => exact Or.inr (Or.inl ⟨_, getUserIdByLdap_transport env ldap w e h he⟩)
    | none =>
      by_cases hs : (searchAnswer env w ldap).status = 200
      · cases hd : (env.json.users (searchAnswer env w ldap).body).err with
        | some e =>
          exact Or.inr (Or.inl ⟨_, getUserIdByLdap_unparseable env ldap w e h he hs hd⟩)
        | none =>
          cases hv : (env.json.users (searchAnswer env w ldap).body).value with
          | nil => exact Or.inr (Or.inl ⟨_, getUserIdByLdap_missing env ldap w h he hs hd hv⟩)
          | cons u us =>
            exact Or.inr (Or.inr (Or.inr ⟨_, getUserIdByLdap_found env ldap w u us h he hs hd hv⟩))
      · exact Or.inr (Or.inr (Or.inl ⟨_, getUserIdByLdap_status env ldap w h he hs⟩))

theorem getUserIdByLdap_same (env : Env) (ldap : String) (w : World) :
    SameFields w (getUserIdByLdap env ldap w).world := by
  rcases getUserIdByLdap_cases env ldap w with ⟨m, h⟩ | ⟨m, h⟩ | ⟨m, h⟩ | ⟨i, h⟩ <;>
    rw [h] <;> exact ⟨rfl, rfl, rfl, rfl, rfl, rfl, rfl, rfl, rfl⟩

theorem getUserIdByLdap_trace (env : Env) (ldap : String) (w : World) :
    TraceGrows (fun r => r.kind.isMembership) w (getUserIdByLdap env ldap w).world := by
  have hk : (userSearchRequest w.op ldap).kind.isMembership = true := by
    simp [userSearchRequest, usersEndpoint, Request.kind, Kind.isMembership]
  rcases getUserIdByLdap_cases env ldap w with ⟨m, h⟩ | ⟨m, h⟩ | ⟨m, h⟩ | ⟨i, h⟩ <;> rw [h]
  · exact ⟨[], by simp [Run.world, AddError, afterWait], by simp⟩
  · exact ⟨[_], rfl, by simpa using hk⟩
  · exact ⟨[_], rfl, by simpa using hk⟩
  · exact ⟨[_], rfl, by simpa using hk⟩

theorem getUserIdByLdap_waits (env : Env) (ldap : String) (w : World) :
    (getUserIdByLdap env ldap w).world.waits = w.waits + 1 := by
  rcases getUserIdByLdap_cases env ldap w with ⟨m, h⟩ | ⟨m, h⟩ | ⟨m, h⟩ | ⟨i, h⟩ <;>
    rw [h] <;> rfl

theorem assignLoop_same (env : Env) (g : String) (ldaps : List String) :
    ∀ w : World, SameFields w (assignLoop env g ldaps w).world := by
  induction ldaps with
  | nil => intro w; exact SameFields.unchanged w
  | cons l rest ih =>
    intro w
    have hs := getUserIdByLdap_same env l w
    unfold assignLoop
    split
    · next w1 h => rw [h] at hs; exact hs
    · next w1 id h =>
      rw [h] at hs
      split
      · exact hs.andThen (ih w1)
      · exact (hs.andThen ((addMember_same env id g w1).andThen
          (show SameFields _ (barAdd _) from ⟨rfl, rfl, rfl, rfl, rfl, rfl, rfl, rfl, rfl⟩))).andThen
          (ih _)

theorem removeLoop_same (env : Env) (g : String) (ldaps : List String) :
    ∀ w : World, SameFields w (removeLoop env g ldaps w).world := by
  induction ldaps with
  | nil => intro w; exact SameFields.unchanged w
  | cons l rest ih =>
    intro w
    have hs := getUserIdByLdap_same env l w
    unfold removeLoop
    split
    · next w1 h => rw [h] at hs; exact hs
    · next w1 id h =>
      rw [h] at hs
      split
      · exact hs.andThen (ih w1)
      · exact (hs.andThen ((removeMember_same env id g w1).andThen
          (show SameFields _ (barAdd _) from ⟨rfl, rfl, rfl, rfl, rfl, rfl, rfl, rfl, rfl⟩))).andThen
          (ih _)

theorem assignLoop_trace (env : Env) (g : String) (ldaps : List String) :
    ∀ w : World, TraceGrows (fun r => r.kind.isMembership) w (assignLoop env g ldaps w).world := by
  induction ldaps with
  | nil => intro w; exact TraceGrows.nothing _ w
  | cons l rest ih =>
    intro w
    have hs := getUserIdByLdap_trace env l w
    unfold assignLoop
    split
    · next w1 h => rw [h] at hs; exact hs
    · next w1 id h =>
      rw [h] at hs
      split
      · exact hs.chain (ih w1)
      · have hm : TraceGrows (fun r => r.kind.isMembership) w1 (barAdd (addMember env id g w1)) :=
          ⟨[addMemberRequest w1.op id g], addMember_trace env id g w1,
            by simp [addMemberRequest, Request.kind, Kind.isMembership]⟩
        exact (hs.chain hm).chain (ih _)

theorem removeLoop_trace (env : Env) (g : String) (ldaps : List String) :
    ∀ w : World, TraceGrows (fun r => r.kind.isMembership) w (removeLoop env g ldaps w).world := by
  induction ldaps with
  | nil => intro w; exact TraceGrows.nothing _ w
  | cons l rest ih =>
    intro w
    have hs := getUserIdByLdap_trace env l w
    unfold removeLoop
    split
    · next w1 h => rw [h] at hs; exact hs
    · next w1 id h =>
      rw [h] at hs
      split
      · exact hs.chain (ih w1)
      · have hm : TraceGrows (fun r => r.kind.isMembership) w1
            (barAdd (removeMember env id g w1)) :=
          ⟨[removeMemberRequest w1.op id g], removeMember_trace env id g w1,
            by simp [removeMemberRequest, Request.kind, Kind.isMembership]⟩
        exact (hs.chain hm).chain (ih _)

theorem assignRoleWithGroup_same (env : Env) (roleId g : String) (w : World) :
    SameFields w (assignRoleWithGroup env roleId g w).world :=
  (assignRole_same env _ roleId g w).andThen (assignLoop_same env g _ _)

theorem assignRoleWithGroup_trace (env : Env) (roleId g : String) (w : World) :
    TraceGrows (fun r => r.kind.isMembership) w (assignRoleWithGroup env roleId g w).world := by
  have h1 : TraceGrows (fun r => r.kind.isMembership) w
      (assignRole env w.op.roleName roleId g w) :=
    ⟨[assignRoleRequest w.op w.op.roleName roleId g], assignRole_trace _ _ _ _ _,
      by simp [assignRoleRequest, Request.kind, Kind.isMembership]⟩
  exact h1.chain (assignLoop_trace env g _ _)

/-! ## The creating branch of `processRole` -/

theorem findRoleRequest_congr {a b : World} (h : SameFields a b) (n : String) :
    findRoleRequest b.op n = findRoleRequest a.op n := by
  simp [findRoleRequest, h.realm, h.clientId]

theorem createRoleRequest_congr {a b : World} (h : SameFields a b) (n : String) :
    createRoleRequest b.op n = createRoleRequest a.op n := by
  simp [createRoleRequest, h.realm, h.clientId]

theorem createSubGroupRequest_congr {a b : World} (h : SameFields a b) (n : String) :
    createSubGroupRequest b.op n = createSubGroupRequest a.op n := by
  simp [createSubGroupRequest, h.realm, h.parentGroupId]

theorem atConfirm_same (env : Env) (w : World) : SameFields w (atConfirm env w) :=
  createRole_same env _ w

theorem atCreateSubGroup_same (env : Env) (w : World) : SameFields w (atCreateSubGroup env w) :=
  (atConfirm_same env w).andThen (findRole_same env _ true _)

theorem createAttempt_world (env : Env) (w : World) :
    (createAttempt env w).1 =
      (createSubGroup env (atCreateSubGroup env w).op.roleName (atCreateSubGroup env w)).1 := rfl

theorem createAttempt_roleId (env : Env) (w : World) :
    (createAttempt env w).2.1 =
      (findRole env (atConfirm env w).op.roleName true (atConfirm env w)).2 := rfl

theorem createAttempt_subGroupId (env : Env) (w : World) :
    (createAttempt env w).2.2 =
      (createSubGroup env (atCreateSubGroup env w).op.roleName (atCreateSubGroup env w)).2 := rfl

theorem createAttempt_same (env : Env) (w : World) : SameFields w (createAttempt env w).1 := by
  rw [createAttempt_world]
  exact (atCreateSubGroup_same env w).andThen (createSubGroup_same env _ _)

theorem atCreateSubGroup_trace (env : Env) (w : World) :
    (atCreateSubGroup env w).trace =
      w.trace ++ [createRoleRequest w.op w.op.roleName, findRoleRequest w.op w.op.roleName] := by
  unfold atCreateSubGroup
  rw [findRole_trace, findRoleRequest_congr (atConfirm_same env w), (atConfirm_same env w).roleName]
  unfold atConfirm
  rw [createRole_trace]
  simp

theorem createAttempt_trace (env : Env) (w : World) :
    ∃ rest : List Request,
      (createAttempt env w).1.trace =
        w.trace ++ [createRoleRequest w.op w.op.roleName, findRoleRequest w.op w.op.roleName,
          createSubGroupRequest w.op w.op.roleName] ++ rest ∧
      ∀ r ∈ rest, r.kind.isLookup = true := by
  obtain ⟨rest, e, p⟩ := createSubGroup_trace env (atCreateSubGroup env w).op.roleName
    (atCreateSubGroup env w)
  refine ⟨rest, ?_, p⟩
  rw [createAttempt_world, e, atCreateSubGroup_trace,
    createSubGroupRequest_congr (atCreateSubGroup_same env w),
    (atCreateSubGroup_same env w).roleName]
  simp

theorem atConfirm_grows (env : Env) (w : World) :
    ∃ msgs : List String, LedgerAdds msgs w (atConfirm env w) :=
  createRole_grows env _ w

theorem atCreateSubGroup_grows (env : Env) (w : World) :
    ∃ msgs : List String, LedgerAdds msgs w (atCreateSubGroup env w) :=
  LedgerAdds.grows_trans (atConfirm_grows env w) (findRole_grows env _ true _)

theorem createAttempt_grows (env : Env) (w : World) :
    ∃ msgs : List String, LedgerAdds msgs w (createAttempt env w).1 := by
  rw [createAttempt_world]
  exact LedgerAdds.grows_trans (atCreateSubGroup_grows env w) (createSubGroup_grows env _ _)

theorem lookups_grows (env : Env) (w : World) :
    ∃ msgs : List String, LedgerAdds msgs w (lookups env w).1 :=
  LedgerAdds.grows_trans ⟨[], findRole_plain_ledger env _ w⟩ (getSubGroupByName_grows env _ _)

theorem processRoleSwitch_trace (env : Env) (roleId g : String) (w : World) :
    TraceGrows (fun r => r.kind.isMembership) w (processRoleSwitch env roleId g w).world := by
  unfold processRoleSwitch
  repeat' split
  · exact TraceGrows.of_trace_eq rfl
  · exact assignRoleWithGroup_trace env roleId g w
  · exact TraceGrows.of_trace_eq rfl
  · exact removeLoop_trace env g _ w
  · exact TraceGrows.nothing _ w

theorem processRole_neither_eq (env : Env) (w : World)
    (hact : w.op.action = actionCreate)
    (hrole : (lookups env w).2.1 = "") (hsub : (lookups env w).2.2 = "") :
    processRole env w =
      if (createAttempt env (lookups env w).1).2.1 = "" ∨
          (createAttempt env (lookups env w).1).2.2 = "" then
        Run.ok (createAttempt env (lookups env w).1).1 ()
      else processRoleSwitch env (createAttempt env (lookups env w).1).2.1
        (createAttempt env (lookups env w).1).2.2 (createAttempt env (lookups env w).1).1 := by
  have hact2 : (lookups env w).1.op.action = actionCreate :=
    (lookups_same env w).action.trans hact
  unfold processRole
  simp only [hact2, if_true]
  rw [if_neg (by simp [hrole, hsub])]

theorem addMember_waits (env : Env) (u g : String) (w : World) :
    (addMember env u g w).waits = w.waits := by
  unfold addMember
  simp only [execute]
  split_ifs <;> rfl

theorem removeMember_waits (env : Env) (u g : String) (w : World) :
    (removeMember env u g w).waits = w.waits := by
  unfold removeMember
  simp only [execute]
  split_ifs <;> rfl

/-- A run of the grant loop that does not panic waits on the limiter once per login. -/
theorem assignLoop_waits (env : Env) (g : String) (ldaps : List String) :
    ∀ w : World, (assignLoop env g ldaps w).panicked = false →
      (assignLoop env g ldaps w).world.waits = w.waits + ldaps.length := by
  induction ldaps with
  | nil => intro w _; rfl
  | cons l rest ih =>
    intro w
    have hw := getUserIdByLdap_waits env l w
    unfold assignLoop
    split
    · next w1 h => intro hp; simp [Run.panicked] at hp
    · next w1 id h =>
      rw [h] at hw
      simp only [Run.world] at hw
      split
      · intro hp
        rw [ih w1 hp, hw, List.length_cons]
        omega
      · intro hp
        rw [ih _ hp, List.length_cons]
        simp only [barAdd, addMember_waits, hw]
        omega

/-- A run of the revoke loop that does not panic waits on the limiter once per login. -/
theorem removeLoop_waits (env : Env) (g : String) (ldaps : List String) :
    ∀ w : World, (removeLoop env g ldaps w).panicked = false →
      (removeLoop env g ldaps w).world.waits = w.waits + ldaps.length := by
  induction ldaps with
  | nil => intro w _; rfl
  | cons l rest ih =>
    intro w
    have hw := getUserIdByLdap_waits env l w
    unfold removeLoop
    split
    · next w1 h => intro hp; simp [Run.panicked] at hp
    · next w1 id h =>
      rw [h] at hw
      simp only [Run.world] at hw
      split
      · intro hp
        rw [ih w1 hp, hw, List.length_cons]
        omega
      · intro hp
        rw [ih _ hp, List.length_cons]
        simp only [barAdd, removeMember_waits, hw]
        omega

theorem assignRole_fail (env : Env) (roleId g : String) (w : World)
    (h : (mappingAnswer env w roleId g).err ≠ none ∨ (mappingAnswer env w roleId g).status ≠ 204) :
    assignRole env w.op.roleName roleId g w =
      AddError ("Ошибка при назначении роли на шаге 2 группе " ++ g ++ " вызвана " ++
        toString (mappingAnswer env w roleId g).status)
        (execute env (assignRoleRequest w.op w.op.roleName roleId g) w).1 := by
  unfold mappingAnswer at h
  unfold assignRole
  simp only [execute]
  rw [if_pos h]
  rfl

/-- Without a non-200 answer to a user search, `getUserIdByLdap` returns. -/
theorem getUserIdByLdap_no_panic (env : Env) (hok : SearchStatusOk env) (ldap : String)
    (w : World) : (getUserIdByLdap env ldap w).panicked = false := by
  cases h : env.limiter w.waits with
  | false => rw [getUserIdByLdap_limited env ldap w h]; rfl
  | true =>
    cases he : (searchAnswer env w ldap).err with
    | some e => rw [getUserIdByLdap_transport env ldap w e h he]; rfl
    | none =>
      have hs : (searchAnswer env w ldap).status = 200 :=
        hok _ _ (by simp [userSearchRequest, usersEndpoint, Request.kind]) he
      cases hd : (env.json.users (searchAnswer env w ldap).body).err with
      | some e => rw [getUserIdByLdap_unparseable env ldap w e h he hs hd]; rfl
      | none =>
        cases hv : (env.json.users (searchAnswer env w ldap).body).value with
        | nil => rw [getUserIdByLdap_missing env ldap w h he hs hd hv]; rfl
        | cons u us => rw [getUserIdByLdap_found env ldap w u us h he hs hd hv]; rfl

/-- Without a non-200 answer to a user search, the revoke loop runs to its end. -/
theorem removeLoop_no_panic (env : Env) (hok : SearchStatusOk env) (g : String)
    (ldaps : List String) : ∀ w : World, (removeLoop env g ldaps w).panicked = false := by
  induction ldaps with
  | nil => intro w; rfl
  | cons l rest ih =>
    intro w
    have hp := getUserIdByLdap_no_panic env hok l w
    unfold removeLoop
    split
    · next w1 h => rw [h] at hp; simp [Run.panicked] at hp
    · split
      · exact ih _
      · exact ih _

/-- Without a non-200 answer to a user search, the grant loop runs to its end. -/
theorem assignLoop_no_panic (env : Env) (hok : SearchStatusOk env) (g : String)
    (ldaps : List String) : ∀ w : World, (assignLoop env g ldaps w).panicked = false := by
  induction ldaps with
  | nil => intro w; rfl
  | cons l rest ih =>
    intro w
    have hp := getUserIdByLdap_no_panic env hok l w
    unfold assignLoop
    split
    · next w1 h => rw [h] at hp; simp [Run.panicked] at hp
    · split
      · exact ih _
      · exact ih _

/-! ## Strings of the ledger -/

theorem strContains_iff_within (s sub : String) :
    strContains s sub = true ↔ sub.data <:+: s.data := by
  unfold strContains
  rw [List.any_eq_true]
  constructor
  · rintro ⟨t, ht, hp⟩
    rw [List.mem_tails] at ht
    rw [ List.isPrefixOf_iff_prefix] at hp
    exact List.infix_iff_prefix_suffix.mpr ⟨t, hp, ht⟩
  · intro h
    obtain ⟨t, hp, ht⟩ := List.infix_iff_prefix_suffix.mp h
    refine ⟨t, (List.mem_tails _ _).mpr ht, ?_⟩
    rw [ List.isPrefixOf_iff_prefix]
    exact hp

theorem trimSpace_within (s : String) : (trimSpace s).data <:+: s.data := by
  unfold trimSpace
  have h1 : ((s.data.dropWhile isSpace).reverse.dropWhile isSpace).reverse <+:
      s.data.dropWhile isSpace := by
    rw [← List.reverse_suffix, List.reverse_reverse]
    exact List.dropWhile_suffix _
  have h2 : s.data.dropWhile isSpace <:+ s.data := List.dropWhile_suffix isSpace
  obtain ⟨r, hr⟩ := h1
  obtain ⟨q, hq⟩ := h2
  exact ⟨q, r, by rw [List.append_assoc, hr, hq]⟩

/-- A text absent from the body is absent from what `String()` returns. -/
theorem strContains_string (res : Response) (sub : String)
    (h : strContains res.body sub = false) : strContains res.string sub = false := by
  cases hc : strContains res.string sub with
  | false => rfl
  | true =>
    have := (strContains_iff_within res.body sub).mpr
      (((strContains_iff_within _ _).mp hc).trans (trimSpace_within res.body))
    rw [h] at this
    exact absurd this (by simp)

theorem strContains_lead (a b : String) : strContains (a ++ b) a = true := by
  unfold strContains
  rw [String.data_append]
  cases h : a.data ++ b.data with
  | nil =>
    have : a.data = [] := by
      cases ha : a.data with
      | nil => rfl
      | cons x xs => rw [ha] at h; simp at h
    simp [this, List.tails]
  | cons x xs =>
    simp only [List.tails, List.any_cons, Bool.or_eq_true]
    left
    rw [← h]
    simp [List.isPrefixOf_iff_prefix]

theorem stripLead_notFound (ldap : String) :
    stripLead ("LDAP не найден: " ++ ldap) "ERROR: " = "LDAP не найден: " ++ ldap := by
  unfold stripLead
  rw [String.data_append]
  have h1 : "LDAP не найден: ".data = 'L' :: "DAP не найден: ".data := by decide
  have h2 : "ERROR: ".data = 'E' :: "RROR: ".data := by decide
  rw [h1, h2]
  simp [List.isPrefixOf]

theorem printEntry_notFound (ldap : String) :
    printEntry ("LDAP не найден: " ++ ldap) = (Level.WARN, "LDAP не найден: " ++ ldap) := by
  have hlit : "LDAP не найден: " = "LDAP не найден" ++ ": " := by decide
  have hc : strContains ("LDAP не найден: " ++ ldap) "LDAP не найден" = true := by
    rw [hlit, String.append_assoc]
    exact strContains_lead _ _
  unfold printEntry
  rw [if_pos hc, stripLead_notFound]

/-! ## What the other stages add to the ledger -/

theorem authenticate_invalid (env : Env) (w : World) (e : String)
    (hv : validateAuthParams env w = some e) : Authenticate env w = (w, some e) := by
  unfold Authenticate
  rw [hv]

theorem authenticate_transport (env : Env) (w : World) (e : String)
    (hv : validateAuthParams env w = none) (he : (tokenAnswer env w).err = some e) :
    LedgerAdds ["Ошибка аутентификации: " ++ toString (tokenAnswer env w).status ++
      ". Пропускаем LDAP: " ++ w.op.ldapsString] w (Authenticate env w).1 ∧
    (Authenticate env w).2 = some e ∧ (Authenticate env w).1.op.client.authToken = "" := by
  unfold tokenAnswer at he
  unfold Authenticate
  rw [hv]
  simp only [sendAuthRequest, execute, he, handleAuthError, resetTokenOnError]
  rw [if_pos (Or.inl (by simp))]
  exact ⟨LedgerAdds.one_of_eq _ rfl rfl, by trivial, by trivial⟩

theorem authenticate_unparseable (env : Env) (w : World) (e : String)
    (hv : validateAuthParams env w = none) (he : (tokenAnswer env w).err = none)
    (hd : (env.json.session (tokenAnswer env w).body).err = some e) :
    LedgerAdds ["Ошибка парсинга ответа: " ++ e] w (Authenticate env w).1 ∧
    (Authenticate env w).2 = some ("ошибка парсинга: " ++ e) := by
  unfold tokenAnswer at he hd
  unfold Authenticate
  rw [hv]
  simp only [sendAuthRequest, execute, he, parseAuthResponse, hd, resetTokenOnError]
  split_ifs <;> exact ⟨LedgerAdds.one_of_eq _ rfl rfl, by trivial⟩

theorem findClient_transport (env : Env) (w : World) (e : String)
    (hmiss : w.clientIdCache.get w.op.ClientIdName = none)
    (he : (clientAnswer env w).err = some e) :
    LedgerAdds ["Ошибка поиска клиента: " ++ toString (clientAnswer env w).status ++
      ". Пропускаем LDAP: " ++ w.op.ldapsString] w (FindClientIdByName env w).1 ∧
    (FindClientIdByName env w).2 = some e := by
  unfold clientAnswer at he
  unfold FindClientIdByName
  rw [hmiss]
  simp only [fetchClients, execute, he, logClientSearchError]
  exact ⟨LedgerAdds.one_of_eq _ rfl rfl, by trivial⟩

theorem findClient_unparseable (env : Env) (w : World) (e : String)
    (hmiss : w.clientIdCache.get w.op.ClientIdName = none)
    (he : (clientAnswer env w).err = none)
    (hd : (env.json.clients (clientAnswer env w).body).err = some e) :
    LedgerAdds ["Ошибка парсинга клиентов: " ++ e ++ ". Пропускаем LDAP: " ++
      w.op.ldapsString] w (FindClientIdByName env w).1 ∧
    (FindClientIdByName env w).2 = some e := by
  unfold clientAnswer at he hd
  unfold FindClientIdByName
  rw [hmiss]
  simp only [fetchClients, execute, he, parseClientsResponse, hd]
  exact ⟨LedgerAdds.one_of_eq _ rfl rfl, by trivial⟩

theorem findClient_none (env : Env) (w : World)
    (hmiss : w.clientIdCache.get w.op.ClientIdName = none)
    (he : (clientAnswer env w).err = none)
    (hd : (env.json.clients (clientAnswer env w).body).err = none)
    (hv : (env.json.clients (clientAnswer env w).body).value = []) :
    LedgerAdds ["Клиент " ++ w.op.ClientIdName ++ " не найден. Пропускаем LDAP:" ++
      w.op.ldapsString] w (FindClientIdByName env w).1 ∧
    (FindClientIdByName env w).2 = some "client not found" := by
  unfold clientAnswer at he hd hv
  unfold FindClientIdByName
  rw [hmiss]
  simp only [fetchClients, execute, he, parseClientsResponse, hd, hv,
    validateClientSearchResults, List.length_nil]
  exact ⟨LedgerAdds.one_of_eq _ rfl rfl, by trivial⟩

theorem findClient_many (env : Env) (w : World) (a b : Client) (cs : List Client)
    (hmiss : w.clientIdCache.get w.op.ClientIdName = none)
    (he : (clientAnswer env w).err = none)
    (hd : (env.json.clients (clientAnswer env w).body).err = none)
    (hv : (env.json.clients (clientAnswer env w).body).value = a :: b :: cs) :
    LedgerAdds ["Найдено несколько клиентов с именем: " ++ w.op.ClientIdName ++
      ". Пропускаем LDAP:" ++ w.op.ldapsString] w (FindClientIdByName env w).1 ∧
    (FindClientIdByName env w).2 = some "multiple clients found" := by
  unfold clientAnswer at he hd hv
  unfold FindClientIdByName
  rw [hmiss]
  simp only [fetchClients, execute, he, parseClientsResponse, hd, hv,
    validateClientSearchResults, List.length_cons]
  exact ⟨LedgerAdds.one_of_eq _ rfl rfl, by trivial⟩

theorem findGroup_transport (env : Env) (w : World) (e : String)
    (he : (containerAnswer env w).err = some e) :
    LedgerAdds ["Не удается получить группу ролей из keycloak: " ++
      toString (containerAnswer env w).status ++ ". Пропускаем LDAP:" ++ w.op.ldapsString] w
      (FindOrCreateGroupByName env w).1 ∧
    (FindOrCreateGroupByName env w).2 = some e := by
  unfold containerAnswer at he
  unfold FindOrCreateGroupByName
  simp only [findRolesGroup, execute, he, logGroupSearchError]
  exact ⟨LedgerAdds.one_of_eq _ rfl rfl, by trivial⟩

theorem parseRolesGroupResponse_unusable (env : Env) (res : Response) (w : World)
    (hd : (env.json.groups res.body).err ≠ none ∨ (env.json.groups res.body).value = []) :
    parseRolesGroupResponse env res w =
      (logGroupSearchError res w, Except.error "failed to parse roles group") := by
  unfold parseRolesGroupResponse
  split
  · next g gs h1 h2 =>
    rcases hd with h | h
    · exact absurd h1 h
    · rw [h2] at h; simp at h
  · rfl

theorem findGroup_unusable (env : Env) (w : World)
    (he : (containerAnswer env w).err = none)
    (hd : (env.json.groups (containerAnswer env w).body).err ≠ none ∨
      (env.json.groups (containerAnswer env w).body).value = []) :
    LedgerAdds ["Не удается получить группу ролей из keycloak: " ++
      toString (containerAnswer env w).status ++ ". Пропускаем LDAP:" ++ w.op.ldapsString] w
      (FindOrCreateGroupByName env w).1 ∧
    (FindOrCreateGroupByName env w).2 = some "failed to parse roles group" := by
  unfold containerAnswer at he hd
  unfold FindOrCreateGroupByName
  simp only [findRolesGroup, execute, he, parseRolesGroupResponse_unusable env _ _ hd,
    logGroupSearchError]
  exact ⟨LedgerAdds.one_of_eq _ rfl rfl, by trivial⟩

theorem createClientSubgroup_fail (env : Env) (pg : String) (w : World)
    (h : (clientGroupAnswer env w pg).err ≠ none ∨ (clientGroupAnswer env w pg).status ≠ 201) :
    LedgerAdds ["Не удается создать группу в keycloak по причине: " ++
      (clientGroupAnswer env w pg).string ++ ", код ошибки: " ++
      toString (clientGroupAnswer env w pg).status ++ ". Пропускаем LDAP:" ++
      w.op.ldapsString] w (createClientSubgroup env pg w).1 ∧
    (createClientSubgroup env pg w).2 = some "group creation failed" := by
  unfold clientGroupAnswer at h
  unfold createClientSubgroup
  simp only [execute]
  rw [if_pos h]
  exact ⟨LedgerAdds.one_of_eq _ rfl rfl, by trivial⟩

theorem addMember_fail (env : Env) (u g : String) (w : World)
    (h : (addMemberAnswer env w u g).err ≠ none ∨ (addMemberAnswer env w u g).status ≠ 204) :
    LedgerAdds ["Ошибка при добавлении участника " ++ u ++ " в группу " ++ g ++ " вызвана " ++
      toString (addMemberAnswer env w u g).status] w (addMember env u g w) := by
  unfold addMemberAnswer at h
  unfold addMember
  simp only [execute]
  rw [if_pos h]
  exact LedgerAdds.one_of_eq _ rfl rfl

theorem removeMember_fail (env : Env) (u g : String) (w : World)
    (h : (removeMemberAnswer env w u g).err ≠ none ∨
      (removeMemberAnswer env w u g).status ≠ 204) :
    LedgerAdds ["Ошибка удаления участника " ++ u ++ " из группы " ++ g ++ " вызвана " ++
      toString (removeMemberAnswer env w u g).status] w (removeMember env u g w) := by
  unfold removeMemberAnswer at h
  unfold removeMember
  simp only [execute]
  rw [if_pos h]
  exact LedgerAdds.one_of_eq _ rfl rfl

/-! ## C1 -/

/-- C1: on a cache miss, for every list of clients the search returned,
`FindClientIdByName` fails with "client not found" and one ledger message
naming the client when the list is empty, fails with "multiple clients found"
and one ledger message when it has two or more entries, and succeeds only
when it has exactly one entry, then setting `clientId` and the cache entry
of the name to that entry's ID; on both failures the cache and `clientId`
are unchanged. -/
theorem findClientIdByName_cardinality (env : Env) (w w1 : World) (clients : List Client)
    (hmiss : w.clientIdCache.get w.op.ClientIdName = none)
    (hfetch : fetchClients env w = (w1, Except.ok clients)) :
    (clients = [] →
      FindClientIdByName env w =
        (AddError ("Клиент " ++ w.op.ClientIdName ++ " не найден. Пропускаем LDAP:" ++
          w.op.ldapsString) w1, some "client not found") ∧
      (FindClientIdByName env w).1.clientIdCache = w.clientIdCache ∧
      (FindClientIdByName env w).1.op.clientId = w.op.clientId) ∧
    (2 ≤ clients.length →
      FindClientIdByName env w =
        (AddError ("Найдено несколько клиентов с именем: " ++ w.op.ClientIdName ++
          ". Пропускаем LDAP:" ++ w.op.ldapsString) w1, some "multiple clients found") ∧
      (FindClientIdByName env w).1.clientIdCache = w.clientIdCache ∧
      (FindClientIdByName env w).1.op.clientId = w.op.clientId) ∧
    (∀ c : Client, clients = [c] →
      (FindClientIdByName env w).2 = none ∧
      (FindClientIdByName env w).1.op.clientId = c.ID ∧
      (FindClientIdByName env w).1.clientIdCache.get w.op.ClientIdName = some c.ID ∧
      (FindClientIdByName env w).1.op.errors = w.op.errors) ∧
    ((FindClientIdByName env w).2 = none → clients.length = 1) := by
  obtain ⟨hop, hcache⟩ := fetchClients_ok env w w1 clients hfetch
  refine ⟨?_, ?_, ?_, ?_⟩
  · intro hc
    subst hc
    simp [FindClientIdByName, hmiss, hfetch, validateClientSearchResults, hop, hcache, AddError]
  · intro hlen
    match clients, hlen with
    | a :: b :: rest, _ =>
      simp [FindClientIdByName, hmiss, hfetch, validateClientSearchResults, hop, hcache, AddError]
  · intro c hc
    subst hc
    have hF : FindClientIdByName env w = (cacheAndSetClientID c.ID w1, none) := by
      simp [FindClientIdByName, hmiss, hfetch, validateClientSearchResults]
    rw [hF]
    simp [cacheAndSetClientID, GoMap.set, GoMap.get, hop]
  · intro hnone
    match clients, hnone with
    | [], hnone =>
      simp [FindClientIdByName, hmiss, hfetch, validateClientSearchResults] at hnone
    | [_], _ => rfl
    | a :: b :: rest, hnone =>
      simp [FindClientIdByName, hmiss, hfetch, validateClientSearchResults] at hnone

/-- C1 at a concrete input: the search for `billing` answers with two clients;
the operation fails with "multiple clients found", one message names the
client, and the cache stays empty. -/
theorem findClientIdByName_cardinality_witness :
    FindClientIdByName (constEnv ⟨none, 200, "two"⟩) (sampleWorld actionAssociate) =
      (AddError "Найдено несколько клиентов с именем: billing. Пропускаем LDAP:alice, bob"
        (fetchClients (constEnv ⟨none, 200, "two"⟩) (sampleWorld actionAssociate)).1,
       some "multiple clients found") ∧
    (FindClientIdByName (constEnv ⟨none, 200, "two"⟩)
      (sampleWorld actionAssociate)).1.clientIdCache = [] :=
  have h := (findClientIdByName_cardinality (constEnv ⟨none, 200, "two"⟩)
    (sampleWorld actionAssociate)
    (fetchClients (constEnv ⟨none, 200, "two"⟩) (sampleWorld actionAssociate)).1
    [⟨"id-1", "billing", "Billing"⟩, ⟨"id-2", "billing-old", "Billing"⟩]
    (by decide) (by rfl)).2.1 (by decide)
  ⟨h.1, h.2.1⟩

/-! ## C2 -/

/-- C2: for a request with action `CreateRole` whose role lookup and subgroup
lookup both return a non-empty identifier, `processRole` continues into
`assignRoleWithGroup` with exactly those two identifiers, from the world in
which the action has been changed to `AssociateUsers`; the action is still
`AssociateUsers` at the end, and no request issued by `processRole` is a
create-role or create-subgroup call. -/
theorem processRole_create_both_resolved (env : Env) (w : World)
    (hact : w.op.action = actionCreate)
    (hrole : (lookups env w).2.1 ≠ "")
    (hsub : (lookups env w).2.2 ≠ "") :
    processRole env w =
      assignRoleWithGroup env (lookups env w).2.1 (lookups env w).2.2
        (switchToAssociate (lookups env w).1) ∧
    (switchToAssociate (lookups env w).1).op.action = actionAssociate ∧
    (processRole env w).world.op.action = actionAssociate ∧
    TraceGrows (fun r => !r.kind.isCreate) w (processRole env w).world := by
  have hact2 : (lookups env w).1.op.action = actionCreate :=
    (lookups_same env w).action.trans hact
  have heq : processRole env w =
      assignRoleWithGroup env (lookups env w).2.1 (lookups env w).2.2
        (switchToAssociate (lookups env w).1) := by
    unfold processRole
    simp only [hact2, if_true]
    rw [if_pos (Or.inl hrole)]
    unfold processRoleSwitch
    have ha : (switchToAssociate (lookups env w).1).op.action = actionAssociate := rfl
    rw [if_pos ha, if_neg (by simp [hrole, hsub])]
  refine ⟨heq, rfl, ?_, ?_⟩
  · rw [heq]
    exact (assignRoleWithGroup_same env _ _ _).action
  · rw [heq]
    have h1 : TraceGrows (fun r => !r.kind.isCreate) w (switchToAssociate (lookups env w).1) :=
      ((lookups_trace env w).mono (by
        intro r hr
        revert hr
        cases r.kind <;> simp [Kind.isLookup, Kind.isCreate])).chain
        (TraceGrows.of_trace_eq rfl)
    exact h1.chain ((assignRoleWithGroup_trace env _ _ _).mono (by
      intro r hr
      revert hr
      cases r.kind <;> simp [Kind.isMembership, Kind.isCreate]))

/-- C2 at a concrete input: the role `Auditor` and its subgroup exist, the
request asks to create the role; the action ends as `AssociateUsers`. -/
theorem processRole_create_both_resolved_witness :
    (processRole (kindEnv allGood) (sampleWorld actionCreate)).world.op.action =
      actionAssociate :=
  (processRole_create_both_resolved (kindEnv allGood) (sampleWorld actionCreate) rfl
    (by decide) (by decide)).2.2.1

/-! ## C3 -/

/-- C3, refuted as stated: on a backend where the role resolves and its
subgroup does not, a `CreateRole` request issues no create-role call (it
issues the three lookup calls and nothing else), so it does not behave as in
the case where neither resolves. -/
theorem processRole_one_resolved_counterexample :
    (sampleWorld actionCreate).op.action = actionCreate ∧
    (lookups (kindEnv roleOnly) (sampleWorld actionCreate)).2.1 ≠ "" ∧
    (lookups (kindEnv roleOnly) (sampleWorld actionCreate)).2.2 = "" ∧
    (processRole (kindEnv roleOnly) (sampleWorld actionCreate)).world.trace.map Request.kind =
      [Kind.roleLookup, Kind.groupLookup, Kind.childrenLookup] ∧
    ¬ (∃ r ∈ (processRole (kindEnv roleOnly) (sampleWorld actionCreate)).world.trace,
        r.kind.isCreate = true) := by
  decide

/-- C3 as amended: for a request with action `CreateRole` where exactly one of
the role and its subgroup resolves, `processRole` changes the action to
`AssociateUsers`, appends the message that the role does not exist and
returns; the only requests it has issued are the lookups, so it issues no
create-role, no create-subgroup and no membership call. -/
theorem processRole_create_one_resolved (env : Env) (w : World)
    (hact : w.op.action = actionCreate)
    (hone : ((lookups env w).2.1 ≠ "" ∧ (lookups env w).2.2 = "") ∨
      ((lookups env w).2.1 = "" ∧ (lookups env w).2.2 ≠ "")) :
    processRole env w =
      Run.ok (AddError ("Роль " ++ w.op.roleName ++ " не существует. Пропуск LDAP:" ++
        w.op.ldapsString) (switchToAssociate (lookups env w).1)) () ∧
    (processRole env w).world.op.action = actionAssociate ∧
    TraceGrows (fun r => r.kind.isLookup) w (processRole env w).world ∧
    TraceGrows (fun r => !r.kind.isCreate && !r.kind.isMembership) w
      (processRole env w).world := by
  have hsame := lookups_same env w
  have hact2 : (lookups env w).1.op.action = actionCreate := hsame.action.trans hact
  have heq : processRole env w =
      Run.ok (AddError ("Роль " ++ w.op.roleName ++ " не существует. Пропуск LDAP:" ++
        w.op.ldapsString) (switchToAssociate (lookups env w).1)) () := by
    unfold processRole
    simp only [hact2, if_true]
    have h1 : (lookups env w).2.1 ≠ "" ∨ (lookups env w).2.2 ≠ "" := by
      rcases hone with h | h
      · exact Or.inl h.1
      · exact Or.inr h.2
    have h2 : (lookups env w).2.1 = "" ∨ (lookups env w).2.2 = "" := by
      rcases hone with h | h
      · exact Or.inr h.2
      · exact Or.inl h.1
    rw [if_pos h1]
    unfold processRoleSwitch
    have ha : (switchToAssociate (lookups env w).1).op.action = actionAssociate := rfl
    rw [if_pos ha, if_pos h2]
    have hn : (switchToAssociate (lookups env w).1).op.roleName = w.op.roleName :=
      hsame.roleName
    have hl : (switchToAssociate (lookups env w).1).op.ldapsString = w.op.ldapsString :=
      hsame.ldapsString
    rw [hn, hl]
  have htr : TraceGrows (fun r => r.kind.isLookup) w (processRole env w).world := by
    rw [heq]
    exact (lookups_trace env w).chain (TraceGrows.of_trace_eq rfl)
  refine ⟨heq, ?_, htr, ?_⟩
  · rw [heq]; rfl
  · exact htr.mono (by
      intro r hr
      revert hr
      cases r.kind <;> simp [Kind.isLookup, Kind.isCreate, Kind.isMembership])

/-- C3 as amended, at a concrete input: the role exists, the subgroup does
not; the ledger gets the one message that the role does not exist. -/
theorem processRole_create_one_resolved_witness :
    processRole (kindEnv roleOnly) (sampleWorld actionCreate) =
      Run.ok (AddError "Роль Auditor не существует. Пропуск LDAP:alice, bob"
        (switchToAssociate (lookups (kindEnv roleOnly) (sampleWorld actionCreate)).1)) () :=
  (processRole_create_one_resolved (kindEnv roleOnly) (sampleWorld actionCreate) rfl
    (Or.inl ⟨by decide, by decide⟩)).1

/-! ## C4 -/

/-- C4, refuted as stated: neither the role nor the subgroup resolves, the
role is created, the create-subgroup call is answered 409 Conflict and the
lookup by name that follows finds no child of that name.  The subgroup
identifier is empty and `processRole` returns, with an empty ledger. -/
theorem processRole_silent_abort_counterexample :
    (lookups conflictEnv (sampleWorld actionCreate)).2.1 = "" ∧
    (lookups conflictEnv (sampleWorld actionCreate)).2.2 = "" ∧
    (createAttempt conflictEnv (lookups conflictEnv (sampleWorld actionCreate)).1).2.2 = "" ∧
    (processRole conflictEnv (sampleWorld actionCreate)).panicked = false ∧
    (processRole conflictEnv (sampleWorld actionCreate)).world.trace.map Request.kind =
      [Kind.roleLookup, Kind.groupLookup, Kind.childrenLookup, Kind.createRole,
       Kind.roleLookup, Kind.createSubGroup, Kind.groupLookup, Kind.childrenLookup] ∧
    (processRole conflictEnv (sampleWorld actionCreate)).world.op.errors = [] ∧
    (processRole conflictEnv (sampleWorld actionCreate)).world.op.errorCounter = 0 := by
  decide

/-- C4 as amended: for a request with action `CreateRole` where neither the
role nor the subgroup resolves, `processRole` issues the create-role call,
the confirmation lookup and the create-subgroup call, in that order; if the
role identifier or the subgroup identifier is then empty it returns in the
world the attempt ended in, having issued no role-mapping, user-lookup or
membership call.  A message has been appended to the ledger, and the
identifier concerned is empty, when the confirmation lookup had a transport
error or a status other than 200, when the create-subgroup call had a
transport error or a status other than 201 and other than 409, and, after a
409, when one of the two requests of the lookup by name had a transport error
or a status other than 200. -/
theorem processRole_create_neither (env : Env) (w : World)
    (hact : w.op.action = actionCreate)
    (hrole : (lookups env w).2.1 = "") (hsub : (lookups env w).2.2 = "") :
    (∃ rest : List Request,
      (processRole env w).world.trace =
        (lookups env w).1.trace ++
          [createRoleRequest w.op w.op.roleName, findRoleRequest w.op w.op.roleName,
           createSubGroupRequest w.op w.op.roleName] ++ rest) ∧
    ((createAttempt env (lookups env w).1).2.1 = "" ∨
        (createAttempt env (lookups env w).1).2.2 = "" →
      processRole env w = Run.ok (createAttempt env (lookups env w).1).1 () ∧
      TraceGrows (fun r => !r.kind.isMembership) w (processRole env w).world) ∧
    ((findRoleAnswer env (atConfirm env (lookups env w).1) w.op.roleName).err ≠ none ∨
        (findRoleAnswer env (atConfirm env (lookups env w).1) w.op.roleName).status ≠ 200 →
      (createAttempt env (lookups env w).1).2.1 = "" ∧
      LedgerGrew w (createAttempt env (lookups env w).1).1) ∧
    (((createSubGroupAnswer env (atCreateSubGroup env (lookups env w).1) w.op.roleName).err ≠ none ∨
        (createSubGroupAnswer env (atCreateSubGroup env (lookups env w).1) w.op.roleName).status
          ≠ 201) ∧
      (createSubGroupAnswer env (atCreateSubGroup env (lookups env w).1) w.op.roleName).status
          ≠ 409 →
      (createAttempt env (lookups env w).1).2.2 = "" ∧
      LedgerGrew w (createAttempt env (lookups env w).1).1) ∧
    ((createSubGroupAnswer env (atCreateSubGroup env (lookups env w).1) w.op.roleName).status
          = 409 ∧
      ((parentAnswer env (atFallback env (lookups env w).1)).err ≠ none ∨
        (parentAnswer env (atFallback env (lookups env w).1)).status ≠ 200 ∨
        (childrenAnswer env (atFallback env (lookups env w).1)).err ≠ none ∨
        (childrenAnswer env (atFallback env (lookups env w).1)).status ≠ 200) →
      (createAttempt env (lookups env w).1).2.2 = "" ∧
      LedgerGrew w (createAttempt env (lookups env w).1).1) := by
  have hs2 := lookups_same env w
  have hn2 : (lookups env w).1.op.roleName = w.op.roleName := hs2.roleName
  have hn3 : (atConfirm env (lookups env w).1).op.roleName = w.op.roleName :=
    (atConfirm_same env _).roleName.trans hn2
  have hn4 : (atCreateSubGroup env (lookups env w).1).op.roleName = w.op.roleName :=
    (atCreateSubGroup_same env _).roleName.trans hn2
  have heq := processRole_neither_eq env w hact hrole hsub
  refine ⟨?_, ?_, ?_, ?_, ?_⟩
  · obtain ⟨rest, e, -⟩ := createAttempt_trace env (lookups env w).1
    rw [createRoleRequest_congr hs2, findRoleRequest_congr hs2,
      createSubGroupRequest_congr hs2, hn2] at e
    rw [heq]
    split
    · exact ⟨rest, e⟩
    · obtain ⟨more, e2, -⟩ := processRoleSwitch_trace env
        (createAttempt env (lookups env w).1).2.1 (createAttempt env (lookups env w).1).2.2
        (createAttempt env (lookups env w).1).1
      exact ⟨rest ++ more, by rw [e2, e]; simp⟩
  · intro hempty
    rw [heq, if_pos hempty]
    refine ⟨rfl, ?_⟩
    have h1 : TraceGrows (fun r => !r.kind.isMembership) w (lookups env w).1 :=
      (lookups_trace env w).mono (by
        intro r hr
        revert hr
        cases r.kind <;> simp [Kind.isLookup, Kind.isMembership])
    obtain ⟨rest, e, p⟩ := createAttempt_trace env (lookups env w).1
    rw [List.append_assoc] at e
    refine h1.chain ⟨_, e, ?_⟩
    intro r hr
    simp only [List.mem_append, List.mem_cons, List.mem_singleton, List.not_mem_nil,
      or_false] at hr
    rcases hr with (h | h | h) | h
    · subst h; simp [createRoleRequest, Request.kind, Kind.isMembership]
    · subst h; simp [findRoleRequest, Request.kind, Kind.isMembership]
    · subst h; simp [createSubGroupRequest, Request.kind, Kind.isMembership]
    · exact Kind.lookup_not_membership _ (p r h)
  · intro hfail
    rw [← hn3] at hfail
    obtain ⟨hl, hid⟩ := findRole_confirm_fail env _ (atConfirm env (lookups env w).1) hfail
    refine ⟨hid, ?_⟩
    rw [createAttempt_world]
    exact LedgerGrew.then_grows
      (LedgerGrew.after_grows
        (LedgerAdds.grows_trans (lookups_grows env w) (atConfirm_grows env _))
        (LedgerGrew.of_one hl))
      (createSubGroup_grows env _ _)
  · intro hfail
    rw [← hn4] at hfail
    obtain ⟨hl, hid⟩ := createSubGroup_fail env _ (atCreateSubGroup env (lookups env w).1)
      hfail.1 hfail.2
    refine ⟨hid, ?_⟩
    rw [createAttempt_world]
    exact LedgerGrew.after_grows
      (LedgerAdds.grows_trans (lookups_grows env w) (atCreateSubGroup_grows env _))
      (LedgerGrew.of_one hl)
  · intro hfail
    obtain ⟨h409, hfb⟩ := hfail
    rw [← hn4] at h409
    have hc := createSubGroup_conflict env _ (atCreateSubGroup env (lookups env w).1) h409
    have hbase : ∃ msgs : List String, LedgerAdds msgs w (atFallback env (lookups env w).1) :=
      LedgerAdds.grows_trans
        (LedgerAdds.grows_trans (lookups_grows env w) (atCreateSubGroup_grows env _))
        ⟨[], LedgerAdds.nil_of_eq rfl rfl⟩
    rw [createAttempt_world, createAttempt_subGroupId, hc]
    by_cases hp : (parentAnswer env (atFallback env (lookups env w).1)).err ≠ none ∨
        (parentAnswer env (atFallback env (lookups env w).1)).status ≠ 200
    · obtain ⟨hl, hid⟩ := getSubGroupByName_parent_fail env
        (atCreateSubGroup env (lookups env w).1).op.roleName _ hp
      exact ⟨hid, LedgerGrew.after_grows hbase (LedgerGrew.of_one hl)⟩
    · have hch : (childrenAnswer env (atFallback env (lookups env w).1)).err ≠ none ∨
          (childrenAnswer env (atFallback env (lookups env w).1)).status ≠ 200 := by
        rcases hfb with h | h | h | h
        · exact absurd (Or.inl h) hp
        · exact absurd (Or.inr h) hp
        · exact Or.inl h
        · exact Or.inr h
      cases hce : (childrenAnswer env (atFallback env (lookups env w).1)).err with
      | some e =>
        obtain ⟨hl, hid⟩ := getSubGroupByName_children_transport env
          (atCreateSubGroup env (lookups env w).1).op.roleName _ e hp hce
        exact ⟨hid, LedgerGrew.after_grows hbase (LedgerGrew.of_one hl)⟩
      | none =>
        have hst : (childrenAnswer env (atFallback env (lookups env w).1)).status ≠ 200 := by
          rcases hch with h | h
          · exact absurd hce h
          · exact h
        obtain ⟨hl, hid⟩ := getSubGroupByName_children_status env
          (atCreateSubGroup env (lookups env w).1).op.roleName _ hp hce hst
        exact ⟨hid, LedgerGrew.after_grows hbase (LedgerGrew.of_one hl)⟩

/-- C4 as amended, at a concrete input: neither the role nor the subgroup
exists and the role lookup still answers 404 after the create-role call; the
role identifier stays empty and the ledger has got a message. -/
theorem processRole_create_neither_witness :
    (createAttempt (kindEnv roleNeverFound)
      (lookups (kindEnv roleNeverFound) (sampleWorld actionCreate)).1).2.1 = "" ∧
    LedgerGrew (sampleWorld actionCreate)
      (createAttempt (kindEnv roleNeverFound)
        (lookups (kindEnv roleNeverFound) (sampleWorld actionCreate)).1).1 :=
  (processRole_create_neither (kindEnv roleNeverFound) (sampleWorld actionCreate) rfl
    (by decide) (by decide)).2.2.1 (Or.inr (by decide))

/-! ## C5 -/

/-- C5: for a request with action `AssociateUsers` or `RemoveUsers` whose role
identifier or subgroup identifier does not resolve, `processRole` appends the
message that the role does not exist to the ledger and returns; after the
lookups it issues no request at all, so no role-mapping, user-lookup,
add-to-group or remove-from-group call. -/
theorem processRole_missing_role (env : Env) (w : World)
    (hact : w.op.action = actionAssociate ∨ w.op.action = actionRemove)
    (hmiss : (lookups env w).2.1 = "" ∨ (lookups env w).2.2 = "") :
    processRole env w =
      Run.ok (AddError ("Роль " ++ w.op.roleName ++ " не существует. Пропуск LDAP:" ++
        w.op.ldapsString) (lookups env w).1) () ∧
    (processRole env w).world.trace = (lookups env w).1.trace ∧
    TraceGrows (fun r => !r.kind.isMembership) w (processRole env w).world ∧
    (∃ msgs : List String, LedgerAdds (msgs ++ ["Роль " ++ w.op.roleName ++
      " не существует. Пропуск LDAP:" ++ w.op.ldapsString]) w (processRole env w).world) := by
  have hsame := lookups_same env w
  have heq : processRole env w =
      Run.ok (AddError ("Роль " ++ w.op.roleName ++ " не существует. Пропуск LDAP:" ++
        w.op.ldapsString) (lookups env w).1) () := by
    unfold processRole
    rcases hact with ha | ha
    · have h2 : (lookups env w).1.op.action = actionAssociate := hsame.action.trans ha
      have hne : ¬ (lookups env w).1.op.action = actionCreate := by rw [h2]; decide
      simp only [hne, if_false]
      unfold processRoleSwitch
      rw [if_pos h2, if_pos hmiss, hsame.roleName, hsame.ldapsString]
    · have h2 : (lookups env w).1.op.action = actionRemove := hsame.action.trans ha
      have hne : ¬ (lookups env w).1.op.action = actionCreate := by rw [h2]; decide
      have hna : ¬ (lookups env w).1.op.action = actionAssociate := by rw [h2]; decide
      simp only [hne, if_false]
      unfold processRoleSwitch
      rw [if_neg hna, if_pos h2, if_pos hmiss, hsame.roleName, hsame.ldapsString]
  refine ⟨heq, by rw [heq]; rfl, ?_, ?_⟩
  · rw [heq]
    exact ((lookups_trace env w).mono (fun r hr => Kind.lookup_not_membership _ hr)).chain
      (TraceGrows.of_trace_eq rfl)
  · rw [heq]
    obtain ⟨msgs, hl⟩ := lookups_grows env w
    exact ⟨msgs, hl.append (LedgerAdds.one_of_eq _ rfl rfl)⟩

/-- C5 at a concrete input: a `RemoveUsers` request for a role the backend
does not know. -/
theorem processRole_missing_role_witness :
    processRole (kindEnv roleNeverFound) (sampleWorld actionRemove) =
      Run.ok (AddError "Роль Auditor не существует. Пропуск LDAP:alice, bob"
        (lookups (kindEnv roleNeverFound) (sampleWorld actionRemove)).1) () :=
  (processRole_missing_role (kindEnv roleNeverFound) (sampleWorld actionRemove)
    (Or.inr rfl) (Or.inl (by decide))).1

/-! ## C6 -/

/-- C6, refuted as stated: the role-mapping call is answered 500; the failure
is recorded, and yet both logins are looked up and added to the group. -/
theorem assignRoleWithGroup_mapping_counterexample :
    (mappingAnswer (kindEnv mappingFails) (sampleWorld actionAssociate) "id-1" "id-1").status
      = 500 ∧
    (assignRoleWithGroup (kindEnv mappingFails) "id-1" "id-1"
      (sampleWorld actionAssociate)).world.op.errors =
      [(1, "Ошибка при назначении роли на шаге 2 группе id-1 вызвана 500")] ∧
    (assignRoleWithGroup (kindEnv mappingFails) "id-1" "id-1"
      (sampleWorld actionAssociate)).world.trace.map Request.kind =
      [Kind.roleMapping, Kind.userLookup, Kind.addMember, Kind.userLookup, Kind.addMember] := by
  decide

/-- C6 as amended: in the grant path, if the role-mapping call has a transport
error or a status other than 204, exactly one message is appended to the
ledger and membership synchronisation then runs as usual: the loop over the
logins of the request starts from the world with that message, and unless it
panics it waits on the limiter once for each login. -/
theorem assignRoleWithGroup_mapping_failure (env : Env) (roleId g : String) (w : World)
    (h : (mappingAnswer env w roleId g).err ≠ none ∨ (mappingAnswer env w roleId g).status ≠ 204) :
    LedgerAdds ["Ошибка при назначении роли на шаге 2 группе " ++ g ++ " вызвана " ++
      toString (mappingAnswer env w roleId g).status] w
      (assignRole env w.op.roleName roleId g w) ∧
    assignRoleWithGroup env roleId g w =
      assignLoop env g w.op.ldaps
        (AddError ("Ошибка при назначении роли на шаге 2 группе " ++ g ++ " вызвана " ++
          toString (mappingAnswer env w roleId g).status)
          (execute env (assignRoleRequest w.op w.op.roleName roleId g) w).1) ∧
    ((assignRoleWithGroup env roleId g w).panicked = false →
      (assignRoleWithGroup env roleId g w).world.waits = w.waits + w.op.ldaps.length) := by
  have hf := assignRole_fail env roleId g w h
  refine ⟨?_, ?_, ?_⟩
  · rw [hf]
    exact LedgerAdds.one_of_eq _ rfl rfl
  · unfold assignRoleWithGroup
    rw [hf]
    rfl
  · intro hp
    unfold assignRoleWithGroup at hp ⊢
    rw [assignLoop_waits env g _ _ hp, (assignRole_same env _ roleId g w).ldaps, hf]
    rfl

/-- C6 as amended, at a concrete input: the mapping call is answered 500 and
the two logins are still waited for. -/
theorem assignRoleWithGroup_mapping_failure_witness :
    (assignRoleWithGroup (kindEnv mappingFails) "id-1" "id-1"
      (sampleWorld actionAssociate)).world.waits = 0 + 2 :=
  (assignRoleWithGroup_mapping_failure (kindEnv mappingFails) "id-1" "id-1"
    (sampleWorld actionAssociate) (Or.inr (by decide))).2.2 (by decide)

/-! ## C7 -/

/-- C7, the code at the failing input: the token endpoint answers 401 with a
JSON error object and no transport error.  `Authenticate` returns nil, the
ledger stays empty, and the client carries the empty token. -/
theorem authenticate_accepts_rejected_token :
    validateAuthParams (kindEnv tokenRejected) (sampleWorld actionAssociate) = none ∧
    (sendAuthRequest (kindEnv tokenRejected) (sampleWorld actionAssociate)).2 =
      ⟨none, 401, "err"⟩ ∧
    (Authenticate (kindEnv tokenRejected) (sampleWorld actionAssociate)).2 = none ∧
    (Authenticate (kindEnv tokenRejected) (sampleWorld actionAssociate)).1.op.errors = [] ∧
    (Authenticate (kindEnv tokenRejected) (sampleWorld actionAssociate)).1.op.errorCounter = 0 ∧
    (Authenticate (kindEnv tokenRejected) (sampleWorld actionAssociate)).1.op.client.authToken
      = "" := by
  decide

/-! ## C8 -/

/-- C8, the code at the failing input: the logins are `alice` and `bob` and
the search for `alice` is answered 403 without transport error.  Both loops
record the failure and then panic in `parseUserResponse` on the nil response:
one wait on the limiter, one user search, `bob` is never attempted. -/
theorem membership_loops_panic_on_search_status :
    (sampleWorld actionRemove).op.ldaps = ["alice", "bob"] ∧
    searchAnswer (kindEnv searchForbidden) (sampleWorld actionRemove) "alice" =
      ⟨none, 403, "err"⟩ ∧
    (removeUsersFromGroup (kindEnv searchForbidden) "id-1"
      (sampleWorld actionRemove)).panicked = true ∧
    (removeUsersFromGroup (kindEnv searchForbidden) "id-1"
      (sampleWorld actionRemove)).world.waits = 1 ∧
    (removeUsersFromGroup (kindEnv searchForbidden) "id-1"
      (sampleWorld actionRemove)).world.trace =
      [userSearchRequest (sampleOp actionRemove) "alice"] ∧
    (removeUsersFromGroup (kindEnv searchForbidden) "id-1"
      (sampleWorld actionRemove)).world.op.errors =
      [(1, "Ошибка поиска LDAP: alice, статус: 403")] ∧
    (assignRoleWithGroup (kindEnv searchForbidden) "id-1" "id-1"
      (sampleWorld actionAssociate)).panicked = true ∧
    (assignRoleWithGroup (kindEnv searchForbidden) "id-1" "id-1"
      (sampleWorld actionAssociate)).world.waits = 1 ∧
    (assignRoleWithGroup (kindEnv searchForbidden) "id-1" "id-1"
      (sampleWorld actionAssociate)).world.trace.map Request.kind =
      [Kind.roleMapping, Kind.userLookup] := by
  decide

/-! ## C9 -/

/-- C9, refuted as stated: in a binary built without credentials the
parameter validation of `Authenticate` fails; the error is returned and no
message is appended to the ledger. -/
theorem authenticate_validation_counterexample :
    validateAuthParams noCredentials (sampleWorld actionAssociate) =
      some "учётные данные Keycloak не установлены (должны задаваться при сборке)" ∧
    Authenticate noCredentials (sampleWorld actionAssociate) =
      (sampleWorld actionAssociate,
       some "учётные данные Keycloak не установлены (должны задаваться при сборке)") ∧
    (Authenticate noCredentials (sampleWorld actionAssociate)).1.op.errors = [] := by
  decide

/-- C9 as amended: each of the following failures appends exactly one message
to the ledger of the request: a transport error or an undecodable body of the
token exchange; in the client search a transport error, an undecodable body,
no client, several clients; in the search for the container group a transport
error, an undecodable body or an empty list; a transport error or a status
other than 201 of the creation of the client's group; a failed create-role
call whose body does not say "already exists"; a failed confirmation lookup
of the role; a failed request of the subgroup lookup by name; a failed
create-subgroup call with a status other than 409; a failed role mapping; for
one login a timeout of the rate limiter, a transport error of the search, a
status other than 200, an undecodable body, no user; a failed add-to-group or
remove-from-group call.  A failure of the parameter validation of
`Authenticate` appends no message. -/
theorem failures_append_one_message (env : Env) (w : World) :
    (∀ e, validateAuthParams env w = some e →
      (Authenticate env w).2 = some e ∧ LedgerAdds [] w (Authenticate env w).1) ∧
    (∀ e, validateAuthParams env w = none → (tokenAnswer env w).err = some e →
      ∃ msg, LedgerAdds [msg] w (Authenticate env w).1) ∧
    (∀ e, validateAuthParams env w = none → (tokenAnswer env w).err = none →
      (env.json.session (tokenAnswer env w).body).err = some e →
      ∃ msg, LedgerAdds [msg] w (Authenticate env w).1) ∧
    (w.clientIdCache.get w.op.ClientIdName = none →
      ((clientAnswer env w).err ≠ none ∨
        (env.json.clients (clientAnswer env w).body).err ≠ none ∨
        (env.json.clients (clientAnswer env w).body).value.length ≠ 1) →
      ∃ msg, LedgerAdds [msg] w (FindClientIdByName env w).1) ∧
    (((containerAnswer env w).err ≠ none ∨
        (env.json.groups (containerAnswer env w).body).err ≠ none ∨
        (env.json.groups (containerAnswer env w).body).value = []) →
      ∃ msg, LedgerAdds [msg] w (FindOrCreateGroupByName env w).1) ∧
    (∀ pg, ((clientGroupAnswer env w pg).err ≠ none ∨ (clientGroupAnswer env w pg).status ≠ 201) →
      ∃ msg, LedgerAdds [msg] w (createClientSubgroup env pg w).1) ∧
    (∀ n, ((createRoleAnswer env w n).err ≠ none ∨ (createRoleAnswer env w n).status ≠ 201) →
      strContains (createRoleAnswer env w n).body "already exists" = false →
      ∃ msg, LedgerAdds [msg] w (createRole env n w)) ∧
    (∀ n, ((findRoleAnswer env w n).err ≠ none ∨ (findRoleAnswer env w n).status ≠ 200) →
      ∃ msg, LedgerAdds [msg] w (findRole env n true w).1) ∧
    (∀ n, ((parentAnswer env w).err ≠ none ∨ (parentAnswer env w).status ≠ 200 ∨
        (childrenAnswer env w).err ≠ none ∨ (childrenAnswer env w).status ≠ 200) →
      ∃ msg, LedgerAdds [msg] w (getSubGroupByName env n w).1) ∧
    (∀ g, ((createSubGroupAnswer env w g).err ≠ none ∨
        (createSubGroupAnswer env w g).status ≠ 201) →
      (createSubGroupAnswer env w g).status ≠ 409 →
      ∃ msg, LedgerAdds [msg] w (createSubGroup env g w).1) ∧
    (∀ roleId g, ((mappingAnswer env w roleId g).err ≠ none ∨
        (mappingAnswer env w roleId g).status ≠ 204) →
      ∃ msg, LedgerAdds [msg] w (assignRole env w.op.roleName roleId g w)) ∧
    (∀ ldap, (env.limiter w.waits = false ∨ (searchAnswer env w ldap).err ≠ none ∨
        (searchAnswer env w ldap).status ≠ 200 ∨
        (env.json.users (searchAnswer env w ldap).body).err ≠ none ∨
        (env.json.users (searchAnswer env w ldap).body).value = []) →
      ∃ msg, LedgerAdds [msg] w (getUserIdByLdap env ldap w).world) ∧
    (∀ u g, ((addMemberAnswer env w u g).err ≠ none ∨ (addMemberAnswer env w u g).status ≠ 204) →
      ∃ msg, LedgerAdds [msg] w (addMember env u g w)) ∧
    (∀ u g, ((removeMemberAnswer env w u g).err ≠ none ∨
        (removeMemberAnswer env w u g).status ≠ 204) →
      ∃ msg, LedgerAdds [msg] w (removeMember env u g w)) := by
  refine ⟨?_, ?_, ?_, ?_, ?_, ?_, ?_, ?_, ?_, ?_, ?_, ?_, ?_, ?_⟩
  · intro e hv
    rw [authenticate_invalid env w e hv]
    exact ⟨rfl, LedgerAdds.nil_of_eq rfl rfl⟩
  · intro e hv he
    exact ⟨_, (authenticate_transport env w e hv he).1⟩
  · intro e hv he hd
    exact ⟨_, (authenticate_unparseable env w e hv he hd).1⟩
  · intro hmiss hfail
    cases he : (clientAnswer env w).err with
    | some e => exact ⟨_, (findClient_transport env w e hmiss he).1⟩
    | none =>
      cases hd : (env.json.clients (clientAnswer env w).body).err with
      | some e => exact ⟨_, (findClient_unparseable env w e hmiss he hd).1⟩
      | none =>
        match hv : (env.json.clients (clientAnswer env w).body).value with
        | [] => exact ⟨_, (findClient_none env w hmiss he hd hv).1⟩
        | [c] =>
          rw [he, hd, hv] at hfail
          simp at hfail
        | a :: b :: cs => exact ⟨_, (findClient_many env w a b cs hmiss he hd hv).1⟩
  · intro hfail
    cases he : (containerAnswer env w).err with
    | some e => exact ⟨_, (findGroup_transport env w e he).1⟩
    | none =>
      have hd : (env.json.groups (containerAnswer env w).body).err ≠ none ∨
          (env.json.groups (containerAnswer env w).body).value = [] := by
        rcases hfail with h | h | h
        · exact absurd he h
        · exact Or.inl h
        · exact Or.inr h
      exact ⟨_, (findGroup_unusable env w he hd).1⟩
  · intro pg h
    exact ⟨_, (createClientSubgroup_fail env pg w h).1⟩
  · intro n h hb
    rw [createRole_fail env n w h (strContains_string _ _ hb)]
    exact ⟨_, LedgerAdds.one_of_eq _ rfl rfl⟩
  · intro n h
    exact ⟨_, (findRole_confirm_fail env n w h).1⟩
  · intro n hfail
    by_cases hp : (parentAnswer env w).err ≠ none ∨ (parentAnswer env w).status ≠ 200
    · exact ⟨_, (getSubGroupByName_parent_fail env n w hp).1⟩
    · cases hce : (childrenAnswer env w).err with
      | some e => exact ⟨_, (getSubGroupByName_children_transport env n w e hp hce).1⟩
      | none =>
        have hst : (childrenAnswer env w).status ≠ 200 := by
          rcases hfail with h | h | h | h
          · exact absurd (Or.inl h) hp
          · exact absurd (Or.inr h) hp
          · exact absurd hce h
          · exact h
        exact ⟨_, (getSubGroupByName_children_status env n w hp hce hst).1⟩
  · intro g h hc
    exact ⟨_, (createSubGroup_fail env g w h hc).1⟩
  · intro roleId g h
    rw [assignRole_fail env roleId g w h]
    exact ⟨_, LedgerAdds.one_of_eq _ rfl rfl⟩
  · intro ldap hfail
    cases h : env.limiter w.waits with
    | false =>
      rw [getUserIdByLdap_limited env ldap w h]
      exact ⟨_, LedgerAdds.one_of_eq _ rfl rfl⟩
    | true =>
      cases he : (searchAnswer env w ldap).err with
      | some e =>
        rw [getUserIdByLdap_transport env ldap w e h he]
        exact ⟨_, LedgerAdds.one_of_eq _ rfl rfl⟩
      | none =>
        by_cases hs : (searchAnswer env w ldap).status = 200
        · cases hd : (env.json.users (searchAnswer env w ldap).body).err with
          | some e =>
            rw [getUserIdByLdap_unparseable env ldap w e h he hs hd]
            exact ⟨_, LedgerAdds.one_of_eq _ rfl rfl⟩
          | none =>
            have hv : (env.json.users (searchAnswer env w ldap).body).value = [] := by
              rcases hfail with h1 | h1 | h1 | h1 | h1
              · rw [h] at h1; simp at h1
              · exact absurd he h1
              · exact absurd hs h1
              · exact absurd hd h1
              · exact h1
            rw [getUserIdByLdap_missing env ldap w h he hs hd hv]
            exact ⟨_, LedgerAdds.one_of_eq _ rfl rfl⟩
        · rw [getUserIdByLdap_status env ldap w h he hs]
          exact ⟨_, LedgerAdds.one_of_eq _ rfl rfl⟩
  · intro u g h
    exact ⟨_, addMember_fail env u g w h⟩
  · intro u g h
    exact ⟨_, removeMember_fail env u g w h⟩

/-- C9 as amended, at a concrete input: the search for the container group
returns an empty list, and one message is appended. -/
theorem failures_append_one_message_witness :
    ∃ msg, LedgerAdds [msg] (sampleWorld actionAssociate)
      (FindOrCreateGroupByName (kindEnv noContainer) (sampleWorld actionAssociate)).1 :=
  (failures_append_one_message (kindEnv noContainer) (sampleWorld actionAssociate)).2.2.2.2.1
    (Or.inr (Or.inr (by rfl)))

/-! ## C10 -/

/-- C10: when the limiter grants the wait and the user search for a login is
answered 200 with a body that decodes to an empty list, `getUserIdByLdap`
returns (no panic) after appending exactly one message for that login; both
loops go on with the following logins from that world; and `printErrors`
prints a ledger entry with that message as a warning, in whatever order it
walks the ledger. -/
theorem zero_results_is_one_warning (env : Env) (g ldap : String) (rest : List String)
    (w : World)
    (h : env.limiter w.waits = true) (he : (searchAnswer env w ldap).err = none)
    (hs : (searchAnswer env w ldap).status = 200)
    (hd : (env.json.users (searchAnswer env w ldap).body).err = none)
    (hv : (env.json.users (searchAnswer env w ldap).body).value = []) :
    getUserIdByLdap env ldap w =
      Run.ok (AddError ("LDAP не найден: " ++ ldap) (afterSearch w ldap)) "" ∧
    LedgerAdds ["LDAP не найден: " ++ ldap] w
      (AddError ("LDAP не найден: " ++ ldap) (afterSearch w ldap)) ∧
    removeLoop env g (ldap :: rest) w =
      removeLoop env g rest (AddError ("LDAP не найден: " ++ ldap) (afterSearch w ldap)) ∧
    assignLoop env g (ldap :: rest) w =
      assignLoop env g rest (AddError ("LDAP не найден: " ++ ldap) (afterSearch w ldap)) ∧
    printEntry ("LDAP не найден: " ++ ldap) = (Level.WARN, "LDAP не найден: " ++ ldap) ∧
    (∀ (op : Operation) (k : Nat) (visit : GoMap Nat String → List (Nat × String)),
      (∀ m, (visit m).Perm m) → (k, "LDAP не найден: " ++ ldap) ∈ op.errors →
      (Level.WARN, "LDAP не найден: " ++ ldap) ∈ printErrors visit op) := by
  have hg := getUserIdByLdap_missing env ldap w h he hs hd hv
  refine ⟨hg, LedgerAdds.one_of_eq _ rfl rfl, ?_, ?_, printEntry_notFound ldap, ?_⟩
  · rw [removeLoop, hg]
    simp
  · rw [assignLoop, hg]
    simp
  · intro op k visit hperm hmem
    unfold printErrors
    have hne : op.errors.length ≠ 0 := by
      intro h0
      rw [List.length_eq_zero] at h0
      rw [h0] at hmem
      simp at hmem
    rw [if_neg hne]
    rw [List.mem_map]
    exact ⟨(k, "LDAP не найден: " ++ ldap), (hperm op.errors).mem_iff.mpr hmem,
      printEntry_notFound ldap⟩

/-- C10 at a concrete input: a `RemoveUsers` request for `alice` and `bob`,
neither known to the backend; the loop goes on to `bob` after one message
for `alice`. -/
theorem zero_results_is_one_warning_witness :
    removeLoop (kindEnv noUsers) "id-1" ["alice", "bob"] (sampleWorld actionRemove) =
      removeLoop (kindEnv noUsers) "id-1" ["bob"]
        (AddError "LDAP не найден: alice" (afterSearch (sampleWorld actionRemove) "alice")) :=
  (zero_results_is_one_warning (kindEnv noUsers) "id-1" "alice" ["bob"]
    (sampleWorld actionRemove) rfl (by decide) (by decide) (by decide) (by decide)).2.2.1

/-! ## The client cache -/

theorem goMap_get_set_self {κ υ : Type} [DecidableEq κ] (m : GoMap κ υ) (k : κ) (v : υ) :
    (m.set k v).get k = some v := by
  simp [GoMap.get, GoMap.set]

theorem goMap_get_set_other {κ υ : Type} [DecidableEq κ] (m : GoMap κ υ) (k k1 : κ) (v : υ)
    (h : k1 ≠ k) : (m.set k v).get k1 = m.get k1 := by
  have hk : ¬ k = k1 := fun e => h e.symm
  unfold GoMap.get GoMap.set
  rw [List.find?_cons_of_neg _ (by simpa using hk)]
  congr 1
  induction m with
  | nil => rfl
  | cons e rest ih =>
    by_cases he : e.1 = k
    · have h1 : ¬ e.1 = k1 := by rw [he]; exact hk
      rw [List.filter_cons_of_neg (by simpa using he), ih,
        List.find?_cons_of_neg _ (by simpa using h1)]
    · rw [List.filter_cons_of_pos (by simpa using he)]
      by_cases h1 : e.1 = k1
      · rw [List.find?_cons_of_pos _ (by simpa using h1),
          List.find?_cons_of_pos _ (by simpa using h1)]
      · rw [List.find?_cons_of_neg _ (by simpa using h1),
          List.find?_cons_of_neg _ (by simpa using h1), ih]

/-- A cache hit: the cached identifier is taken and nothing else happens. -/
theorem findClient_hit (env : Env) (w : World) (id : String)
    (h : w.clientIdCache.get w.op.ClientIdName = some id) :
    FindClientIdByName env w = ({ w with op := { w.op with clientId := id } }, none) := by
  unfold FindClientIdByName
  rw [h]

/-- A cache miss leaves the cache as it was or adds the entry of the name searched. -/
theorem findClient_miss_cache (env : Env) (w : World)
    (h : w.clientIdCache.get w.op.ClientIdName = none) :
    (FindClientIdByName env w).1.clientIdCache = w.clientIdCache ∨
    ((FindClientIdByName env w).2 = none ∧
      (FindClientIdByName env w).1.clientIdCache =
        w.clientIdCache.set w.op.ClientIdName (FindClientIdByName env w).1.op.clientId) := by
  unfold FindClientIdByName
  rw [h]
  simp only
  rcases hf : fetchClients env w with ⟨w1, r⟩
  cases r with
  | error e =>
    left
    unfold fetchClients at hf
    simp only [execute] at hf
    split at hf
    · simp only [Prod.mk.injEq] at hf
      rw [← hf.1]
      rfl
    · unfold parseClientsResponse at hf
      split at hf
      · simp only [Prod.mk.injEq] at hf
        rw [← hf.1]
        rfl
      · simp at hf
  | ok clients =>
    obtain ⟨hop, hcache⟩ := fetchClients_ok env w w1 clients hf
    match clients with
    | [] => left; simp [validateClientSearchResults, AddError, hcache]
    | [c] =>
      right
      simp [validateClientSearchResults, cacheAndSetClientID, hcache, hop]
    | a :: b :: rest => left; simp [validateClientSearchResults, AddError, hcache]

/-- After a successful `FindClientIdByName` the cache maps the name to the
identifier now in `clientId`. -/
theorem findClient_success_cached (env : Env) (w : World)
    (hok : (FindClientIdByName env w).2 = none) :
    (FindClientIdByName env w).1.clientIdCache.get w.op.ClientIdName =
      some (FindClientIdByName env w).1.op.clientId := by
  cases h : w.clientIdCache.get w.op.ClientIdName with
  | some id => rw [findClient_hit env w id h]; exact h
  | none =>
    rcases findClient_miss_cache env w h with hsame | ⟨-, hset⟩
    · exfalso
      revert hok hsame
      unfold FindClientIdByName
      rw [h]
      simp only
      rcases hf : fetchClients env w with ⟨w1, r⟩
      cases r with
      | error e => simp
      | ok clients =>
        obtain ⟨hop, hcache⟩ := fetchClients_ok env w w1 clients hf
        match clients with
        | [] => simp [validateClientSearchResults]
        | [c] =>
          intro _ hsame
          simp only [validateClientSearchResults, List.length_singleton,
            cacheAndSetClientID, hcache, hop] at hsame
          have := goMap_get_set_self w.clientIdCache w.op.ClientIdName c.ID
          rw [hsame, h] at this
          simp at this
        | a :: b :: rest => simp [validateClientSearchResults]
    · rw [hset]
      exact goMap_get_set_self _ _ _

/-- No call of `FindClientIdByName` changes an entry the cache already has. -/
theorem findClient_keeps_entries (env : Env) (w : World) (k id : String)
    (hk : w.clientIdCache.get k = some id) :
    (FindClientIdByName env w).1.clientIdCache.get k = some id := by
  cases h : w.clientIdCache.get w.op.ClientIdName with
  | some cached => rw [findClient_hit env w cached h]; exact hk
  | none =>
    rcases findClient_miss_cache env w h with hsame | ⟨-, hset⟩
    · rw [hsame]; exact hk
    · have hne : k ≠ w.op.ClientIdName := by
        intro e
        rw [e, h] at hk
        simp at hk
      rw [hset, goMap_get_set_other _ _ _ _ hne]
      exact hk

/-! ## C12 -/

/-- C12: after a successful `FindClientIdByName` for a client name, a call of
`FindClientIdByName` for the same name, in any later world whose cache still
has the entries the first call left and against any backend, succeeds, sets
`clientId` to the identifier the first call set, and does nothing else: the
trace is unchanged, so no backend call is issued.  And no call of
`FindClientIdByName` changes a cache entry that is already present. -/
theorem findClientIdByName_second_call (env env2 : Env) (w v : World)
    (hok : (FindClientIdByName env w).2 = none)
    (hname : v.op.ClientIdName = w.op.ClientIdName)
    (hcache : ∀ k id, (FindClientIdByName env w).1.clientIdCache.get k = some id →
      v.clientIdCache.get k = some id) :
    FindClientIdByName env2 v =
      ({ v with op := { v.op with clientId := (FindClientIdByName env w).1.op.clientId } },
       none) ∧
    (FindClientIdByName env2 v).1.op.clientId = (FindClientIdByName env w).1.op.clientId ∧
    (FindClientIdByName env2 v).1.trace = v.trace ∧
    (∀ (env3 : Env) (u : World) (k id : String), u.clientIdCache.get k = some id →
      (FindClientIdByName env3 u).1.clientIdCache.get k = some id) := by
  have hget : v.clientIdCache.get v.op.ClientIdName =
      some (FindClientIdByName env w).1.op.clientId := by
    rw [hname]
    exact hcache _ _ (findClient_success_cached env w hok)
  have heq := findClient_hit env2 v _ hget
  refine ⟨heq, ?_, ?_, ?_⟩
  · rw [heq]
  · rw [heq]
  · intro env3 u k id hk
    exact findClient_keeps_entries env3 u k id hk

/-- C12 at a concrete input: the search for `billing` finds one client; the
same operation asks again, now against a backend that would find two
clients, and gets the same identifier without a request. -/
theorem findClientIdByName_second_call_witness :
    (FindClientIdByName (kindEnv twoClients)
      (FindClientIdByName (kindEnv allGood) (sampleWorld actionAssociate)).1).1.op.clientId =
      (FindClientIdByName (kindEnv allGood) (sampleWorld actionAssociate)).1.op.clientId ∧
    (FindClientIdByName (kindEnv twoClients)
      (FindClientIdByName (kindEnv allGood) (sampleWorld actionAssociate)).1).1.trace =
      (FindClientIdByName (kindEnv allGood) (sampleWorld actionAssociate)).1.trace :=
  have h := findClientIdByName_second_call (kindEnv allGood) (kindEnv twoClients)
    (sampleWorld actionAssociate)
    (FindClientIdByName (kindEnv allGood) (sampleWorld actionAssociate)).1
    (by decide) (by decide) (fun _ _ hk => hk)
  ⟨h.2.1, h.2.2.1⟩

/-! ## C18 -/

/-- C18: the cache is keyed by the client name alone.  For two operations with
the same `ClientIdName`, whatever their realms, base URLs and backends, once
`FindClientIdByName` has succeeded for the first, `FindClientIdByName` for the
second succeeds with the identifier of the first and leaves the trace as it
was: the backend of the second operation is not queried. -/
theorem clientIdCache_keyed_by_name_alone (env1 env2 : Env) (w : World) (op1 op2 : Operation)
    (hname : op2.ClientIdName = op1.ClientIdName)
    (hok : (FindClientIdByName env1 { w with op := op1 }).2 = none) :
    (FindClientIdByName env2
      { (FindClientIdByName env1 { w with op := op1 }).1 with op := op2 }).2 = none ∧
    (FindClientIdByName env2
      { (FindClientIdByName env1 { w with op := op1 }).1 with op := op2 }).1.op.clientId =
      (FindClientIdByName env1 { w with op := op1 }).1.op.clientId ∧
    (FindClientIdByName env2
      { (FindClientIdByName env1 { w with op := op1 }).1 with op := op2 }).1.trace =
      (FindClientIdByName env1 { w with op := op1 }).1.trace ∧
    (FindClientIdByName env2
      { (FindClientIdByName env1 { w with op := op1 }).1 with op := op2 }).1.op.realm =
      op2.realm := by
  have hget : ({ (FindClientIdByName env1 { w with op := op1 }).1 with
      op := op2 } : World).clientIdCache.get op2.ClientIdName =
      some (FindClientIdByName env1 { w with op := op1 }).1.op.clientId := by
    rw [hname]
    exact findClient_success_cached env1 { w with op := op1 } hok
  have heq := findClient_hit env2
    { (FindClientIdByName env1 { w with op := op1 }).1 with op := op2 } _ hget
  rw [heq]
  exact ⟨rfl, rfl, rfl, rfl⟩

/-- C18 at a concrete input: `billing` is resolved in the realm `employee`;
the operation for `billing` in the realm `partner`, whose own backend knows
two such clients, gets the identifier found in `employee` and sends nothing. -/
theorem clientIdCache_keyed_by_name_alone_witness :
    (sampleOp actionAssociate).realm ≠ (partnerOp actionAssociate).realm ∧
    (sampleOp actionAssociate).client.baseURL ≠ (partnerOp actionAssociate).client.baseURL ∧
    (FindClientIdByName (kindEnv twoClients)
      { (FindClientIdByName (kindEnv allGood)
          { sampleWorld actionAssociate with op := sampleOp actionAssociate }).1 with
        op := partnerOp actionAssociate }).1.op.clientId = "id-1" ∧
    (FindClientIdByName (kindEnv twoClients)
      { (FindClientIdByName (kindEnv allGood)
          { sampleWorld actionAssociate with op := sampleOp actionAssociate }).1 with
        op := partnerOp actionAssociate }).1.trace =
      (FindClientIdByName (kindEnv allGood)
        { sampleWorld actionAssociate with op := sampleOp actionAssociate }).1.trace :=
  have h := clientIdCache_keyed_by_name_alone (kindEnv allGood) (kindEnv twoClients)
    (sampleWorld actionAssociate) (sampleOp actionAssociate) (partnerOp actionAssociate)
    rfl (by decide)
  ⟨by decide, by decide, h.2.1, h.2.2.1⟩

/-! ## C13 -/

/-- The lookup by name finds a listed child: no message, the identifier of the
first child of that name. -/
theorem getSubGroupByName_found (env : Env) (n : String) (w : World) (grp : Group)
    (hp : ¬ ((parentAnswer env w).err ≠ none ∨ (parentAnswer env w).status ≠ 200))
    (hce : (childrenAnswer env w).err = none) (hcs : (childrenAnswer env w).status = 200)
    (hfind : (env.json.groups (childrenAnswer env w).body).value.find?
      (fun g => decide (g.Name = n)) = some grp) :
    (getSubGroupByName env n w).2 = grp.ID ∧ LedgerAdds [] w (getSubGroupByName env n w).1 := by
  unfold childrenAnswer at hce hcs hfind
  unfold parentAnswer at hp hce hcs hfind
  unfold getSubGroupByName
  simp only [execute]
  rw [if_neg hp]
  simp only [hce]
  rw [if_neg (by simpa using hcs)]
  simp only [hfind]
  exact ⟨by trivial, LedgerAdds.nil_of_eq rfl rfl⟩

/-- C13, refuted as stated: the group of the client is not among the children
of the container and its creation is answered 409 Conflict;
`FindOrCreateGroupByName` fails with "group creation failed", appends a
message and leaves `parentGroupId` empty. -/
theorem findOrCreateGroup_conflict_counterexample :
    clientGroupAnswer (kindEnv clientGroupConflict)
      (findClientSubgroup (kindEnv clientGroupConflict) (Group.mk "id-1" "Roles" [])
        (findRolesGroup (kindEnv clientGroupConflict) (sampleWorld actionCreate)).1).1 "id-1" =
      ⟨none, 409, "err"⟩ ∧
    (FindOrCreateGroupByName (kindEnv clientGroupConflict) (sampleWorld actionCreate)).2 =
      some "group creation failed" ∧
    (FindOrCreateGroupByName (kindEnv clientGroupConflict)
      (sampleWorld actionCreate)).1.op.parentGroupId = "" ∧
    (FindOrCreateGroupByName (kindEnv clientGroupConflict)
      (sampleWorld actionCreate)).1.op.errorCounter = 1 ∧
    (FindOrCreateGroupByName (kindEnv clientGroupConflict)
      (sampleWorld actionCreate)).1.trace.map Request.kind =
      [Kind.rolesGroupSearch, Kind.childrenLookup, Kind.createClientSubgroup] := by
  decide

/-- C13 as amended: when the create-subgroup call of `createSubGroup` is
answered 409, `createSubGroup` returns what the lookup by name returns from
the world after the call; that is the identifier of the existing subgroup,
with no message added, when both requests of the lookup are answered 200
without transport error and the children listed include one of that name.
The creation of the client's group has no such fallback: answered 409,
`createClientSubgroup` appends one message, fails with "group creation
failed" and leaves `parentGroupId` as it was. -/
theorem conflict_on_create (env : Env) (w : World) :
    (∀ g, (createSubGroupAnswer env w g).status = 409 →
      createSubGroup env g w =
        getSubGroupByName env g (execute env (createSubGroupRequest w.op g) w).1) ∧
    (∀ g grp, (createSubGroupAnswer env w g).status = 409 →
      ¬ ((parentAnswer env (execute env (createSubGroupRequest w.op g) w).1).err ≠ none ∨
        (parentAnswer env (execute env (createSubGroupRequest w.op g) w).1).status ≠ 200) →
      (childrenAnswer env (execute env (createSubGroupRequest w.op g) w).1).err = none →
      (childrenAnswer env (execute env (createSubGroupRequest w.op g) w).1).status = 200 →
      (env.json.groups
        (childrenAnswer env (execute env (createSubGroupRequest w.op g) w).1).body).value.find?
          (fun c => decide (c.Name = g)) = some grp →
      (createSubGroup env g w).2 = grp.ID ∧ LedgerAdds [] w (createSubGroup env g w).1) ∧
    (∀ pg, (clientGroupAnswer env w pg).status = 409 →
      (createClientSubgroup env pg w).2 = some "group creation failed" ∧
      (createClientSubgroup env pg w).1.op.parentGroupId = w.op.parentGroupId ∧
      ∃ msg, LedgerAdds [msg] w (createClientSubgroup env pg w).1) := by
  refine ⟨?_, ?_, ?_⟩
  · intro g h409
    exact createSubGroup_conflict env g w h409
  · intro g grp h409 hp hce hcs hfind
    rw [createSubGroup_conflict env g w h409]
    obtain ⟨hid, hl⟩ := getSubGroupByName_found env g _ grp hp hce hcs hfind
    exact ⟨hid, (LedgerAdds.nil_of_eq rfl rfl).append hl⟩
  · intro pg h409
    have hfail : (clientGroupAnswer env w pg).err ≠ none ∨
        (clientGroupAnswer env w pg).status ≠ 201 := Or.inr (by rw [h409]; decide)
    obtain ⟨hl, hres⟩ := createClientSubgroup_fail env pg w hfail
    refine ⟨hres, ?_, _, hl⟩
    unfold clientGroupAnswer at hfail
    unfold createClientSubgroup
    simp only [execute]
    rw [if_pos hfail]
    rfl

/-- C13 as amended, at a concrete input: the subgroup `Auditor` exists, its
creation is answered 409, and `createSubGroup` returns its identifier. -/
theorem conflict_on_create_witness :
    (createSubGroup (kindEnv subGroupConflict) "Auditor" (sampleWorld actionCreate)).2 =
      "id-1" :=
  ((conflict_on_create (kindEnv subGroupConflict) (sampleWorld actionCreate)).2.1
    "Auditor" (Group.mk "id-1" "Auditor" []) (by decide) (by decide) (by decide) (by decide)
    (by rfl)).1

/-! ## C14 -/

theorem latestFirst_perm (m : GoMap Nat String) : (latestFirst m).Perm m :=
  (List.reverse_perm _).trans (List.perm_insertionSort _ m)

/-- From an empty ledger, `AddError` numbers the messages 1, 2, ... in the
order of the calls. -/
theorem addErrors_ledger (w : World) (hempty : w.op.errors = []) (hzero : w.op.errorCounter = 0)
    (msgs : List String) :
    (addErrors msgs w).op.errors = (msgs.enumFrom 1).reverse ∧
    (addErrors msgs w).op.errorCounter = msgs.length := by
  induction msgs using List.reverseRecOn with
  | nil => exact ⟨hempty, hzero⟩
  | append_singleton l m ih =>
    obtain ⟨he, hc⟩ := ih
    have hstep : addErrors (l ++ [m]) w = AddError m (addErrors l w) := by
      simp [addErrors, List.foldl_append]
    rw [hstep]
    constructor
    · have hkeep : List.filter (fun e : Nat × String => !decide (e.1 = l.length + 1))
          (List.enumFrom 1 l).reverse = (List.enumFrom 1 l).reverse := by
        rw [List.filter_eq_self]
        intro e hmem
        have hlt := List.fst_lt_add_of_mem_enumFrom (List.mem_reverse.mp hmem)
        have hne : e.1 ≠ l.length + 1 := by omega
        simp [hne]
      simp only [AddError, GoMap.set, he, hc, hkeep, List.enumFrom_append,
        List.enumFrom_singleton, List.reverse_append, List.reverse_singleton,
        List.singleton_append]
      rw [Nat.add_comm 1 l.length]
    · simp [AddError, hc]

theorem goMap_get_of_mem_nodup (m : GoMap Nat String) (k : Nat) (v : String)
    (hnd : (m.map Prod.fst).Nodup) (h : (k, v) ∈ m) : m.get k = some v := by
  unfold GoMap.get
  induction m with
  | nil => simp at h
  | cons e rest ih =>
    rw [List.map_cons, List.nodup_cons] at hnd
    rcases List.mem_cons.mp h with he | he
    · subst he
      simp
    · have hne : e.1 ≠ k := by
        intro hk
        apply hnd.1
        rw [hk]
        exact List.mem_map.mpr ⟨(k, v), he, rfl⟩
      rw [List.find?_cons_of_neg _ (by simpa using hne)]
      exact ih hnd.2 he

/-- C14, refuted as stated: two messages are appended to an empty ledger and
the run time walks the map from its last entry; `printErrors` emits the
second message before the first. -/
theorem printErrors_order_counterexample :
    (sampleWorld actionAssociate).op.errors = [] ∧
    (∀ m : GoMap Nat String, (latestFirst m).Perm m) ∧
    ledgerOrder (addErrors ["first", "second"] (sampleWorld actionAssociate)).op.errors =
      [(1, "first"), (2, "second")] ∧
    printErrors latestFirst (addErrors ["first", "second"] (sampleWorld actionAssociate)).op =
      [(Level.ERROR, "second"), (Level.ERROR, "first")] ∧
    printErrors latestFirst (addErrors ["first", "second"] (sampleWorld actionAssociate)).op ≠
      ["first", "second"].map printEntry :=
  ⟨rfl, latestFirst_perm, by decide, by decide, by decide⟩

/-- C14 as amended: for every sequence of `AddError` calls on a request
starting from an empty ledger, the ledger holds the messages under the
sequence numbers 1, 2, ... in the order in which they were appended, and
`printErrors` emits every accumulated message exactly once, each with the
level its own text gives it; the order of emission is the order in which the
run time walks the map, whatever that is. -/
theorem printErrors_emits_each_message_once (w : World) (msgs : List String)
    (visit : GoMap Nat String → List (Nat × String))
    (hempty : w.op.errors = []) (hzero : w.op.errorCounter = 0)
    (hvisit : ∀ m, (visit m).Perm m) :
    (addErrors msgs w).op.errors.Perm (msgs.enumFrom 1) ∧
    (∀ i : Nat, ∀ h : i < msgs.length,
      (addErrors msgs w).op.errors.get (i + 1) = some (msgs.get ⟨i, h⟩)) ∧
    (printErrors visit (addErrors msgs w).op).Perm (msgs.map printEntry) := by
  obtain ⟨he, -⟩ := addErrors_ledger w hempty hzero msgs
  have hperm : (addErrors msgs w).op.errors.Perm (msgs.enumFrom 1) := by
    rw [he]
    exact List.reverse_perm _
  refine ⟨hperm, ?_, ?_⟩
  · intro i h
    rw [he]
    apply goMap_get_of_mem_nodup
    · rw [List.map_reverse, List.nodup_reverse, List.enumFrom_map_fst]
      exact List.nodup_range' 1 msgs.length
    · rw [List.mem_reverse, Nat.add_comm i 1, List.mk_add_mem_enumFrom_iff_getElem?]
      simp [List.getElem?_eq_getElem h]
  · unfold printErrors
    split
    · next h0 =>
      have hnil : msgs = [] := by
        have := hperm.length_eq
        rw [List.enumFrom_length] at this
        exact List.length_eq_zero.mp (this ▸ h0)
      rw [hnil]
      exact List.Perm.refl _
    · have h1 : ((visit (addErrors msgs w).op.errors).map (fun e => printEntry e.2)).Perm
          ((msgs.enumFrom 1).map (fun e => printEntry e.2)) :=
        ((hvisit _).trans hperm).map _
      have h2 : (msgs.enumFrom 1).map (fun e => printEntry e.2) = msgs.map printEntry := by
        rw [← List.enumFrom_map_snd 1 msgs, List.map_map, List.enumFrom_map_snd]
        rfl
      rw [← h2]
      exact h1

/-- C14 as amended, at a concrete input: two messages appended to an empty
ledger and walked from the last entry are both emitted, once each. -/
theorem printErrors_emits_each_message_once_witness :
    (printErrors latestFirst (addErrors ["first", "LDAP не найден: bob"]
      (sampleWorld actionAssociate)).op).Perm
      (["first", "LDAP не найден: bob"].map printEntry) :=
  (printErrors_emits_each_message_once (sampleWorld actionAssociate)
    ["first", "LDAP не найден: bob"] latestFirst rfl rfl latestFirst_perm).2.2

/-! ## C11 -/

/-- Whenever `processOperation` returns, it returns nil. -/
theorem processOperation_returns_nil (env : Env) (index total : Nat) (w w1 : World)
    (e : GoError) (h : processOperation env index total w = Run.ok w1 e) : e = none := by
  unfold processOperation at h
  simp only at h
  repeat' split at h
  all_goals first
    | (injection h with h1 h2; exact h2.symm)
    | (exact absurd h (by simp))

/-- When `Authenticate` fails, `processOperation` returns without any further request. -/
theorem processOperation_stops_after_auth (env : Env) (index total : Nat) (w : World)
    (e : String) (h : (Authenticate env (atStart index total w)).2 = some e) :
    (processOperation env index total w).panicked = false ∧
    (processOperation env index total w).world.trace =
      (Authenticate env (atStart index total w)).1.trace := by
  unfold processOperation
  simp only
  rcases ha : Authenticate env (atStart index total w) with ⟨w1, r⟩
  rw [ha] at h
  simp only at h
  subst h
  have ha2 : Authenticate env (logInfo "Обработка операции %d/%d: %s - %s"
      [toString (index + 1), toString total, w.op.action, w.op.roleName]
      { w with bar := 0, barMax := w.op.ldaps.length }) = (w1, some e) := ha
  rw [ha2]
  exact ⟨rfl, rfl⟩

/-- When `FindClientIdByName` fails, `processOperation` returns without any
further request. -/
theorem processOperation_stops_after_client (env : Env) (index total : Nat) (w : World)
    (e : String) (h1 : (Authenticate env (atStart index total w)).2 = none)
    (h2 : (FindClientIdByName env (Authenticate env (atStart index total w)).1).2 = some e) :
    (processOperation env index total w).panicked = false ∧
    (processOperation env index total w).world.trace =
      (FindClientIdByName env (Authenticate env (atStart index total w)).1).1.trace := by
  unfold processOperation
  simp only
  rcases ha : Authenticate env (atStart index total w) with ⟨w1, r⟩
  rw [ha] at h1 h2
  simp only at h1 h2
  subst h1
  have ha2 : Authenticate env (logInfo "Обработка операции %d/%d: %s - %s"
      [toString (index + 1), toString total, w.op.action, w.op.roleName]
      { w with bar := 0, barMax := w.op.ldaps.length }) = (w1, none) := ha
  rw [ha2]
  simp only
  rcases hc : FindClientIdByName env w1 with ⟨w2, r2⟩
  rw [hc] at h2
  simp only at h2
  subst h2
  exact ⟨rfl, rfl⟩

/-- When `FindOrCreateGroupByName` fails, `processOperation` returns without
any further request. -/
theorem processOperation_stops_after_group (env : Env) (index total : Nat) (w : World)
    (e : String) (h1 : (Authenticate env (atStart index total w)).2 = none)
    (h2 : (FindClientIdByName env (Authenticate env (atStart index total w)).1).2 = none)
    (h3 : (FindOrCreateGroupByName env
      (FindClientIdByName env (Authenticate env (atStart index total w)).1).1).2 = some e) :
    (processOperation env index total w).panicked = false ∧
    (processOperation env index total w).world.trace =
      (FindOrCreateGroupByName env
        (FindClientIdByName env (Authenticate env (atStart index total w)).1).1).1.trace := by
  unfold processOperation
  simp only
  rcases ha : Authenticate env (atStart index total w) with ⟨w1, r⟩
  rw [ha] at h1 h2 h3
  simp only at h1 h2 h3
  subst h1
  have ha2 : Authenticate env (logInfo "Обработка операции %d/%d: %s - %s"
      [toString (index + 1), toString total, w.op.action, w.op.roleName]
      { w with bar := 0, barMax := w.op.ldaps.length }) = (w1, none) := ha
  rw [ha2]
  simp only
  rcases hc : FindClientIdByName env w1 with ⟨w2, r2⟩
  rw [hc] at h2 h3
  simp only at h2 h3
  subst h2
  simp only
  rcases hg : FindOrCreateGroupByName env w2 with ⟨w3, r3⟩
  rw [hg] at h3
  simp only at h3
  subst h3
  exact ⟨rfl, rfl⟩

/-- Once `processOperation` has returned for an operation, `processFile` goes
on with the next one. -/
theorem processOperations_next (env : Env) (total index : Nat) (operation : Operation)
    (rest : List Operation) (w w1 : World) (e : GoError)
    (h : processOperation env index total { w with op := operation } = Run.ok w1 e) :
    processOperations env total (operation :: rest) index w =
      processOperations env total rest (index + 1) w1 := by
  have he := processOperation_returns_nil env index total _ w1 e h
  subst he
  rw [processOperations, h]

theorem processRoleSwitch_no_panic (env : Env) (hok : SearchStatusOk env) (roleId g : String)
    (w : World) : (processRoleSwitch env roleId g w).panicked = false := by
  unfold processRoleSwitch
  repeat' split
  · rfl
  · exact assignLoop_no_panic env hok g _ _
  · rfl
  · exact removeLoop_no_panic env hok g _ _
  · rfl

theorem processRole_no_panic (env : Env) (hok : SearchStatusOk env) (w : World) :
    (processRole env w).panicked = false := by
  unfold processRole
  repeat' split
  all_goals first
    | rfl
    | exact processRoleSwitch_no_panic env hok _ _ _

/-- On a backend that never answers a user search with a status other than
200, `processOperation` returns. -/
theorem processOperation_no_panic (env : Env) (hok : SearchStatusOk env) (index total : Nat)
    (w : World) : (processOperation env index total w).panicked = false := by
  have hp : ∀ v, (processRole env v).panicked = false := processRole_no_panic env hok
  unfold processOperation
  simp only
  repeat' split
  all_goals first
    | rfl
    | (next w3 _ _ w4 hrole => have := hp w3; rw [hrole] at this; simp [Run.panicked] at this)

/-- On a backend that never answers a user search with a status other than
200, `processFile` gets through all the operations of the file and returns nil. -/
theorem processOperations_completes (env : Env) (hok : SearchStatusOk env) (total : Nat)
    (ops : List Operation) :
    ∀ (index : Nat) (w : World), ∃ w1, processOperations env total ops index w = Run.ok w1 none := by
  induction ops with
  | nil => intro index w; exact ⟨w, rfl⟩
  | cons o rest ih =>
    intro index w
    have hp := processOperation_no_panic env hok index total { w with op := o }
    cases hr : processOperation env index total { w with op := o } with
    | panic w1 => rw [hr] at hp; simp [Run.panicked] at hp
    | ok w1 e =>
      rw [processOperations_next env total index o rest w w1 e hr]
      exact ih (index + 1) w1

/-- The scenario of the specification: the client search finds two clients,
and `processOperation` has issued the token request and the client search
only. -/
theorem processOperation_two_clients :
    (processOperation (kindEnv twoClients) 0 1 (sampleWorld actionAssociate)).panicked = false ∧
    (processOperation (kindEnv twoClients) 0 1
      (sampleWorld actionAssociate)).world.trace.map Request.kind =
      [Kind.token, Kind.clientSearch] := by
  decide

/-- C11, the code at the failing input: a file with two operations, on a
backend that answers the user search 403 without transport error.
`processOperation` panics in the membership stage of the first operation, so
it does not return and `processFile` never invokes it for the second: one
token request has been issued and the operation in progress is the first. -/
theorem processFile_stops_on_panic :
    (processOperation (kindEnv searchForbidden) 0 2
      (sampleWorld actionAssociate)).panicked = true ∧
    (processFile (kindEnv searchForbidden) "requests.xlsx"
      (Except.ok [sampleOp actionAssociate, partnerOp actionAssociate])
      (sampleWorld actionAssociate)).panicked = true ∧
    ((processFile (kindEnv searchForbidden) "requests.xlsx"
      (Except.ok [sampleOp actionAssociate, partnerOp actionAssociate])
      (sampleWorld actionAssociate)).world.trace.filter
        (fun r => decide (r.kind = Kind.token))).length = 1 ∧
    (processFile (kindEnv searchForbidden) "requests.xlsx"
      (Except.ok [sampleOp actionAssociate, partnerOp actionAssociate])
      (sampleWorld actionAssociate)).world.op.realm = "employee" ∧
    ((processFile (kindEnv allGood) "requests.xlsx"
      (Except.ok [sampleOp actionAssociate, partnerOp actionAssociate])
      (sampleWorld actionAssociate)).world.trace.filter
        (fun r => decide (r.kind = Kind.token))).length = 2 := by
  decide

/-! ## C15 -/

/-- C15, the code at the failing input: the logins are `alice` and `bob` and
the backend knows no user.  Both loops process both logins (two waits on the
limiter, no panic) and never call `bar.Add(1)`; at the end of
`processOperation` the bar created for two logins stands at 0. -/
theorem progress_bar_skips_failed_logins :
    (sampleWorld actionRemove).op.ldaps.length = 2 ∧
    (removeUsersFromGroup (kindEnv noUsers) "id-1"
      (sampleWorld actionRemove)).panicked = false ∧
    (removeUsersFromGroup (kindEnv noUsers) "id-1" (sampleWorld actionRemove)).world.waits =
      (sampleWorld actionRemove).waits + 2 ∧
    (removeUsersFromGroup (kindEnv noUsers) "id-1" (sampleWorld actionRemove)).world.bar =
      (sampleWorld actionRemove).bar ∧
    (assignRoleWithGroup (kindEnv noUsers) "id-1" "id-1"
      (sampleWorld actionAssociate)).panicked = false ∧
    (assignRoleWithGroup (kindEnv noUsers) "id-1" "id-1"
      (sampleWorld actionAssociate)).world.waits = (sampleWorld actionAssociate).waits + 2 ∧
    (assignRoleWithGroup (kindEnv noUsers) "id-1" "id-1"
      (sampleWorld actionAssociate)).world.bar = (sampleWorld actionAssociate).bar ∧
    (processOperation (kindEnv noUsers) 0 1 (sampleWorld actionRemove)).world.barMax = 2 ∧
    (processOperation (kindEnv noUsers) 0 1 (sampleWorld actionRemove)).world.bar = 0 ∧
    (processOperation (kindEnv allGood) 0 1 (sampleWorld actionRemove)).world.bar = 2 := by
  decide

/-! ## C16 -/

/-- A row with fewer than six columns is rejected. -/
theorem validateExcelRow_short (row : List String) (rowNum : Nat)
    (h : row.length < minColumnsCount) : validateExcelRow row rowNum ≠ none := by
  unfold validateExcelRow
  rw [if_pos h]
  simp

/-- C16, the code at the failing input: the Keycloak type of the row is
`Employees`, which is not one of the allowed values but contains one.
`validateExcelRow` accepts the row, and the operation built from it has an
empty realm and a base URL with an empty domain: the URL built is `https://`
and the client keeps it as `https:`.  Likewise the action
`Remove users from role later` is accepted, and it is none of the three
strings `processRole` dispatches on. -/
theorem validateExcelRow_accepts_unlisted_values :
    rowEmployees.getD 0 "" ∉ ["Employee", "Partner", "Customer"] ∧
    validateExcelRow rowEmployees 2 = none ∧
    getDomainByInstanceAndEnv (rowEmployees.getD 0 "") (rowEmployees.getD 1 "") = "" ∧
    getURLAndRealm (rowEmployees.getD 0 "") (rowEmployees.getD 1 "") = ("https://", "") ∧
    (∃ op, createOperationFromRow rowEmployees 2 = Except.ok op ∧ op.realm = "" ∧
      op.client.baseURL = "https:") ∧
    processExcelRows [rowEmployees] ≠ [] ∧
    validateExcelRow rowRemoveLater 2 = none ∧
    (∃ op, createOperationFromRow rowRemoveLater 2 = Except.ok op ∧
      op.action ∉ [actionCreate, actionAssociate, actionRemove]) :=
  ⟨by decide, by decide, by decide, by decide, ⟨_, rfl, by decide, by decide⟩, by decide,
    by decide, ⟨_, rfl, by decide⟩⟩

/-! ## C17 -/

/-- C17, the code on every input: the request built by `createClientSubgroup`
sets the path parameters `instance` and `group`, while the template of its
endpoint names `realm` and `groupId`; resty therefore leaves both
placeholders in the path, whatever the realm and the identifier of the
container.  The listing request of `getGroupSubgroups`, on the same endpoint,
has both filled in.  The request is the one `FindOrCreateGroupByName` issues
when the children of the container do not include the client's group. -/
theorem createClientSubgroup_path_keeps_placeholders (escape : String → String)
    (op : Operation) (parentGroupID : String) :
    (createClientSubgroupRequest op parentGroupID).path escape =
      "/admin/realms/{realm}/groups/{groupId}/children" ∧
    (createClientSubgroupRequest op parentGroupID).pathParams =
      [("instance", op.realm), ("group", parentGroupID)] ∧
    (groupSubgroupsRequest (sampleOp actionCreate) "id-1").path id =
      "/admin/realms/employee/groups/id-1/children" ∧
    (FindOrCreateGroupByName (kindEnv allGood) (sampleWorld actionCreate)).1.trace.getLast? =
      some (createClientSubgroupRequest (sampleOp actionCreate) "id-1") ∧
    ((FindOrCreateGroupByName (kindEnv allGood) (sampleWorld actionCreate)).1.trace.getLast?.map
      (Request.path id)) = some "/admin/realms/{realm}/groups/{groupId}/children" :=
  ⟨rfl, rfl, by decide, by decide, by decide⟩

end KeycloakRoles
